import Mathlib

/-!
Shallow embedding of the remediation safety-and-learning subsystem of
`intelligent-sre-mcp` (files `tools/healing_actions.py` and
`tools/action_learning.py`), together with theorems settling the frozen
claims C1–C10 about its natural-language specification.

Modelling conventions:
* Timestamps are integers (seconds).  The Python code stores ISO-8601
  strings and compares them; for a fixed format this comparison agrees
  with chronological order, so an integer clock is a faithful embedding.
* `datetime.utcnow()` is threaded explicitly as a `now : Int` argument.
* SQLite/Postgres rows become Lean structures; SQL `UPDATE ... WHERE`,
  `SELECT ... WHERE ... ORDER BY ... LIMIT` become list operations.
* Python exceptions from the kubernetes collaborator are modelled by
  `Except ApiErr`-valued oracle arguments; a `try/except ApiException`
  block becomes a `match` on that value.  A Lean verb function is total
  and always returns a structured result, mirroring the boundary
  contract "never an exception escaping this layer".
* Python `round(x, n)` on non-tie values agrees with
  `(round (x * 10^n)) / 10^n` over ℚ, which is how it is embedded here.
-/

namespace SRE

/-- Reasons returned by `HealingActionLimiter.can_perform_action`,
one constructor per f-string in the source, carrying the exact
interpolated values before any decimal formatting. -/
inductive Reason where
  | rateLimit (recent : Nat) (maxPerHour : Nat)
  | blastRadius (resources : Nat) (maxPods : Nat)
  | cooldown (remainingMinutes : ℚ) (action_type : String)
  | actionAllowed
deriving DecidableEq, Repr

/-- Render a rational with one decimal digit, embedding Python's
`f"{x:.1f}"` (agreeing away from half-ties). -/
def fmt1 (q : ℚ) : String :=
  let t : ℤ := round (q * 10)
  toString (t / 10) ++ "." ++ toString (t % 10)

/-- The reason strings of `can_perform_action`, from the source f-strings. -/
def reasonStr : Reason → String
  | .rateLimit n m =>
      "Rate limit exceeded: " ++ toString n ++ " actions in last hour (max: " ++ toString m ++ ")"
  | .blastRadius n m =>
      "Blast radius too large: " ++ toString n ++ " resources (max: " ++ toString m ++ ")"
  | .cooldown q t =>
      "Cooldown active: " ++ fmt1 q ++ " minutes remaining for " ++ t
  | .actionAllowed => "Action allowed"

/-- One entry of the limiter's in-memory `action_history` list
(`{'timestamp', 'action_type', 'namespace', 'resource', 'success', 'details'}`). -/
structure LogEntry where
  timestamp : Int
  action_type : String
  ns : String
  resource : String
  success : Bool
  details : String
deriving DecidableEq, Repr

/-- `HealingActionLimiter` configuration plus its in-memory history.
Defaults are the constructor values from the source. -/
structure Limiter where
  action_history : List LogEntry
  max_actions_per_hour : Nat := 10
  max_pods_per_action : Nat := 5
  cooldown_minutes : Nat := 5
deriving DecidableEq, Repr

/-- `[a for a in self.action_history if a['timestamp'] > one_hour_ago]`. -/
def recentActions (l : Limiter) (now : Int) : List LogEntry :=
  l.action_history.filter (fun a => decide (a.timestamp > now - 3600))

/-- The same-type-within-cooldown filter of `can_perform_action`. -/
def sameTypeActions (l : Limiter) (now : Int) (action_type : String) : List LogEntry :=
  l.action_history.filter
    (fun a => a.action_type == action_type &&
      decide (a.timestamp > now - 60 * (l.cooldown_minutes : Int)))

/-- `HealingActionLimiter.can_perform_action`, returning the boolean and the
structured reason (the string actually returned is `reasonStr` of it). -/
def canPerformActionR (l : Limiter) (now : Int) (action_type : String)
    (affected_resources : Nat) : Bool × Reason :=
  let recent := recentActions l now
  if recent.length ≥ l.max_actions_per_hour then
    (false, .rateLimit recent.length l.max_actions_per_hour)
  else if affected_resources > l.max_pods_per_action then
    (false, .blastRadius affected_resources l.max_pods_per_action)
  else
    let sameType := sameTypeActions l now action_type
    match sameType.getLast? with
    | some last =>
        (false, .cooldown
          ((l.cooldown_minutes : ℚ) - ((now - last.timestamp : Int) : ℚ) / 60)
          action_type)
    | none => (true, .actionAllowed)

/-- The `(bool, str)` pair the Python method returns. -/
def can_perform_action (l : Limiter) (now : Int) (action_type : String)
    (affected_resources : Nat) : Bool × String :=
  let r := canPerformActionR l now action_type affected_resources
  (r.1, reasonStr r.2)

/-! ## The durable `ActionHistoryStore` -/

/-- A row of the `healing_actions` table. -/
structure ActionRow where
  id : Nat
  timestamp : Int
  action_type : String
  ns : String
  resource : String
  success : Bool
  details : String
  problem_id : Option Int
  outcome : Option String
  resolution_time_seconds : Option ℚ
  notes : Option String
deriving DecidableEq, Repr

/-- A row of the `problems` table. -/
structure ProblemRow where
  id : Nat
  created_at : Int
  title : String
  ns : Option String
  resource : Option String
  severity : Option String
  status : String
  summary : Option String
  fingerprint : Option String
  last_updated : Int
deriving DecidableEq, Repr

/-- A row of the `agent_activity` table. -/
structure ActivityRow where
  id : Nat
  timestamp : Int
  intent : String
  inputs_summary : String
  action_taken : String
  outcome : Option String
  notes : Option String
  problem_id : Option Int
deriving DecidableEq, Repr

/-- The state of one `ActionHistoryStore` database (either backend:
the SQL issued against both engines is row-for-row identical here).
`ctxProblemId` embeds the ambient problem-id context consulted by
`_resolve_problem_id` when no explicit problem id is passed. -/
structure Store where
  actions : List ActionRow
  nextActionId : Nat
  problems : List ProblemRow
  nextProblemId : Nat
  activities : List ActivityRow
  nextActivityId : Nat
  ctxProblemId : Option Int
deriving DecidableEq, Repr

/-- `ActionHistoryStore._resolve_problem_id`: explicit argument, else
ambient context (contextvar / environment fallback), else null. -/
def resolve_problem_id (s : Store) (problem_id : Option Int) : Option Int :=
  match problem_id with
  | some p => some p
  | none => s.ctxProblemId

/-- `ActionHistoryStore.record_action`: INSERT INTO healing_actions, return id. -/
def Store.record_action (s : Store) (now : Int) (action_type ns resource : String)
    (success : Bool) (details : String) (problem_id : Option Int := none) :
    Nat × Store :=
  let row : ActionRow :=
    { id := s.nextActionId, timestamp := now, action_type := action_type,
      ns := ns, resource := resource, success := success, details := details,
      problem_id := resolve_problem_id s problem_id,
      outcome := none, resolution_time_seconds := none, notes := none }
  (s.nextActionId,
   { s with actions := s.actions ++ [row], nextActionId := s.nextActionId + 1 })

/-- `ActionHistoryStore.record_agent_activity`: INSERT INTO agent_activity. -/
def Store.record_agent_activity (s : Store) (now : Int)
    (intent inputs_summary action_taken : String) (outcome : Option String)
    (notes : Option String) (problem_id : Option Int := none) : Nat × Store :=
  let row : ActivityRow :=
    { id := s.nextActivityId, timestamp := now, intent := intent,
      inputs_summary := inputs_summary, action_taken := action_taken,
      outcome := outcome, notes := notes,
      problem_id := resolve_problem_id s problem_id }
  (s.nextActivityId,
   { s with activities := s.activities ++ [row],
            nextActivityId := s.nextActivityId + 1 })

/-- Stable insertion used to embed SQL `ORDER BY`. -/
def insertBy {α : Type} (le : α → α → Bool) (x : α) : List α → List α
  | [] => [x]
  | y :: ys => if le x y then x :: y :: ys else y :: insertBy le x ys

/-- Stable insertion sort used to embed SQL `ORDER BY`. -/
def sortBy {α : Type} (le : α → α → Bool) : List α → List α
  | [] => []
  | x :: xs => insertBy le x (sortBy le xs)

/-- `ActionHistoryStore.list_actions`: actions with `timestamp >= now − hours`,
`ORDER BY timestamp ASC`. -/
def Store.list_actions (s : Store) (now : Int) (hours : Nat) : List ActionRow :=
  let cutoff := now - 3600 * (hours : Int)
  sortBy (fun a b => decide (a.timestamp ≤ b.timestamp))
    (s.actions.filter (fun a => decide (a.timestamp ≥ cutoff)))

/-- Embedding of Python `round(x, 1)` over ℚ. -/
def roundTo1 (q : ℚ) : ℚ := (round (q * 10) : ℤ) / 10

/-- Embedding of Python `round(x, 2)` over ℚ. -/
def roundTo2 (q : ℚ) : ℚ := (round (q * 100) : ℤ) / 100

/-- Per-type slot of `action_stats`'s `by_action_type` dict. -/
structure TypeStats where
  total : Nat
  success : Nat
  failed : Nat
  avg_resolution_time_seconds : Option ℚ
deriving DecidableEq, Repr

/-- Increment the per-type counters for one action, as in the first loop of
`action_stats`. -/
def bumpType (t : TypeStats) (success : Bool) : TypeStats :=
  { t with total := t.total + 1,
           success := if success then t.success + 1 else t.success,
           failed := if success then t.failed else t.failed + 1 }

/-- Point update of an association list (Python `dict[k] = f(dict[k])`). -/
def updateAssoc (m : List (String × TypeStats)) (k : String)
    (f : TypeStats → TypeStats) : List (String × TypeStats) :=
  m.map (fun p => if p.1 == k then (p.1, f p.2) else p)

/-- One iteration of the first loop of `action_stats`: create the type's
slot on first sight, then increment its counters. -/
def statsStep (m : List (String × TypeStats)) (a : ActionRow) :
    List (String × TypeStats) :=
  let m' :=
    if m.any (fun p => p.1 == a.action_type) then m
    else m ++ [(a.action_type,
      { total := 0, success := 0, failed := 0,
        avg_resolution_time_seconds := none })]
  updateAssoc m' a.action_type (fun t => bumpType t a.success)

/-- First loop of `action_stats`: build `by_action` in first-occurrence
order (Python dict insertion order) with counters filled in. -/
def byActionPass1 (actions : List ActionRow) : List (String × TypeStats) :=
  actions.foldl statsStep []

/-- One iteration of the second loop of `action_stats`: average the
non-null resolution times of the type; leave `None` when there are
none. -/
def finalizeType (actions : List ActionRow) (p : String × TypeStats) :
    String × TypeStats :=
  let times := (actions.filter
      (fun a => a.action_type == p.1 && a.resolution_time_seconds.isSome)
    ).filterMap (fun a => a.resolution_time_seconds)
  match times with
  | [] => p
  | _ =>
      let avg := roundTo2 (times.sum / (times.length : ℚ))
      (p.1, { p.2 with avg_resolution_time_seconds := some avg })

/-- Second loop of `action_stats`. -/
def byActionFinal (actions : List ActionRow) : List (String × TypeStats) :=
  (byActionPass1 actions).map (finalizeType actions)

/-- The result record of `ActionHistoryStore.action_stats`. -/
structure StatsResult where
  time_period_hours : Nat
  total_actions : Nat
  successful_actions : Nat
  failed_actions : Nat
  success_rate : ℚ
  by_action_type : List (String × TypeStats)
deriving DecidableEq, Repr

/-- `ActionHistoryStore.action_stats`. -/
def Store.action_stats (s : Store) (now : Int) (hours : Nat) : StatsResult :=
  let actions := s.list_actions now hours
  let total := actions.length
  let successful := (actions.filter (fun a => a.success)).length
  let failed := total - successful
  { time_period_hours := hours,
    total_actions := total,
    successful_actions := successful,
    failed_actions := failed,
    success_rate :=
      if total = 0 then 0
      else roundTo1 (((successful : ℚ) / (total : ℚ)) * 100),
    by_action_type := byActionFinal actions }

/-! ## Problems: creation, dedup, status updates, listing -/

/-- `ActionHistoryStore.create_problem`: INSERT INTO problems with
`created_at = last_updated = now`, returning the fresh id. -/
def Store.create_problem (s : Store) (now : Int) (title : String)
    (ns resource severity : Option String := none) (status : String := "open")
    (summary fingerprint : Option String := none) : Nat × Store :=
  let row : ProblemRow :=
    { id := s.nextProblemId, created_at := now, title := title, ns := ns,
      resource := resource, severity := severity, status := status,
      summary := summary, fingerprint := fingerprint, last_updated := now }
  (s.nextProblemId,
   { s with problems := s.problems ++ [row],
            nextProblemId := s.nextProblemId + 1 })

/-- The WHERE clause of `_find_open_problem`. -/
def matchesOpenFp (fp : String) (r : ProblemRow) : Bool :=
  r.fingerprint == some fp && r.status == "open"

/-- `ActionHistoryStore._find_open_problem`: SELECT id FROM problems WHERE
fingerprint = fp AND status = 'open' ORDER BY last_updated DESC LIMIT 1. -/
def Store.find_open_problem (s : Store) (fp : String) : Option Nat :=
  ((sortBy (fun a b => decide (a.last_updated ≥ b.last_updated))
      (s.problems.filter (matchesOpenFp fp))).head?).map (fun r => r.id)

/-- `ActionHistoryStore.get_or_create_problem`. -/
def Store.get_or_create_problem (s : Store) (now : Int) (title fp : String)
    (ns resource severity : Option String := none) (status : String := "open")
    (summary : Option String := none) : Nat × Store :=
  match s.find_open_problem fp with
  | some existing => (existing, s)
  | none =>
      s.create_problem now title ns resource severity status summary (some fp)

/-- `ActionHistoryStore.update_problem_status`: UPDATE problems SET
status = ?, summary = ?, last_updated = now WHERE id = ?; returns
`rowcount > 0`. -/
def Store.update_problem_status (s : Store) (now : Int) (problem_id : Nat)
    (status : String) (summary : Option String := none) : Bool × Store :=
  (s.problems.any (fun r => r.id == problem_id),
   { s with problems := s.problems.map (fun r =>
       if r.id == problem_id then
         { r with status := status, summary := summary, last_updated := now }
       else r) })

/-! ## `list_problems` and its row conversion -/

/-- A SQL value as fetched by the driver. -/
inductive DBVal where
  | int (n : Int)
  | str (v : String)
  | null
deriving DecidableEq, Repr

/-- Nullable text column to a SQL value. -/
def optStr : Option String → DBVal
  | some v => .str v
  | none => .null

/-- The tuple produced for one row by `list_problems`' SELECT, in column
order: id, created_at, title, namespace, resource, severity, status,
summary, last_updated — nine columns, no fingerprint. -/
def problemSelectRow (r : ProblemRow) : List DBVal :=
  [.int r.id, .int r.created_at, .str r.title, optStr r.ns, optStr r.resource,
   optStr r.severity, .str r.status, optStr r.summary, .int r.last_updated]

/-- The dict built by `ActionHistoryStore._row_to_problem_dict`. -/
structure ProblemDict where
  id : DBVal
  created_at : DBVal
  title : DBVal
  ns : DBVal
  resource : DBVal
  severity : DBVal
  status : DBVal
  summary : DBVal
  fingerprint : DBVal
  last_updated : DBVal
deriving DecidableEq, Repr

/-- `ActionHistoryStore._row_to_problem_dict`: reads `row[0]` … `row[9]`.
`none` models the `IndexError` Python raises when an index is out of
range of the fetched tuple. -/
def row_to_problem_dict (row : List DBVal) : Option ProblemDict := do
  let v0 ← row.get? 0
  let v1 ← row.get? 1
  let v2 ← row.get? 2
  let v3 ← row.get? 3
  let v4 ← row.get? 4
  let v5 ← row.get? 5
  let v6 ← row.get? 6
  let v7 ← row.get? 7
  let v8 ← row.get? 8
  let v9 ← row.get? 9
  some ⟨v0, v1, v2, v3, v4, v5, v6, v7, v8, v9⟩

/-- `ActionHistoryStore.list_problems(hours, limit)`: problems with
`created_at >= now − hours`, `ORDER BY last_updated DESC LIMIT limit`,
each row converted by `_row_to_problem_dict`.  The result is `none` when
the conversion raises (models the uncaught `IndexError` propagating). -/
def Store.list_problems (s : Store) (now : Int) (hours : Nat) (limit : Nat) :
    Option (List ProblemDict) :=
  let cutoff := now - 3600 * (hours : Int)
  let rows := (sortBy (fun a b => decide (a.last_updated ≥ b.last_updated))
      (s.problems.filter (fun r => decide (r.created_at ≥ cutoff)))).take limit
  rows.mapM (fun r => row_to_problem_dict (problemSelectRow r))

/-! ## The remediation executor (`HealingActions`) -/

/-- A kubernetes `ApiException`, carrying its `reason` string. -/
structure ApiErr where
  reason : String
deriving DecidableEq, Repr

/-- Whether a collaborator call returned without raising. -/
def exceptOk : Except ApiErr Unit → Bool
  | .ok _ => true
  | .error _ => false

/-- What the executor reads of a pod object. -/
structure PodInfo where
  name : String
  ns : String
  phase : String
  isMirror : Bool
  ownerKinds : List String
deriving DecidableEq, Repr

/-- A mutating cluster call issued by the executor. -/
inductive ClusterCall where
  | deletePod (ns name : String) (grace : Int)
  | evictPod (ns name : String) (grace : Int)
  | patchNode (name : String)
  | patchDeployment (ns name : String)
deriving DecidableEq, Repr

/-- The structured result dict of an executor verb.  A field valued `none`
models the key being absent from the Python dict; `Option (Option _)`
fields model present-but-null values. -/
structure ActionResult where
  success : Bool
  action : String
  dry_run : Bool
  ns : Option String := none
  resource : Option String := none
  message : Option String := none
  error : Option String := none
  action_id : Option (Option Nat) := none
  deleted_pods : Option (List String) := none
  deleted_count : Option Nat := none
  found_pods : Option Nat := none
  pods : Option (List String) := none
  current_replicas : Option Int := none
  target_replicas : Option Int := none
  previous_replicas : Option Int := none
  target_revision : Option (Option Int) := none
  evicted_pods : Option (List String) := none
  evicted_count : Option Nat := none
  failed_evictions : Option (List (String × String)) := none
  skipped_pods : Option (List String) := none
  would_be_blocked : Option Bool := none
  block_reason : Option (Option String) := none
deriving DecidableEq, Repr

/-- Mutable state owned by a `HealingActions` instance: the limiter with
its in-memory log, and the optional durable store. -/
structure HealState where
  lim : Limiter
  store : Option Store
deriving DecidableEq, Repr

/-- Output of one verb invocation: the returned dict, the new state, the
mutating cluster calls issued (in order), and the gate consultations
performed (`(action_type, affected_resources)` per `can_perform_action`
call). -/
structure VerbOut where
  res : ActionResult
  st : HealState
  calls : List ClusterCall
  gateChecks : List (String × Nat)
deriving DecidableEq, Repr

/-- The 24-hour pruning done by `HealingActionLimiter.record_action`. -/
def pruneHistory (h : List LogEntry) (now : Int) : List LogEntry :=
  h.filter (fun a => decide (a.timestamp > now - 86400))

/-- `HealingActionLimiter.record_action`: append to the in-memory log,
prune to 24h, and — when a store is configured — insert a
`healing_actions` row and an `agent_activity` row, returning the action
row id (`None` without a store). -/
def limiterRecordAction (st : HealState) (now : Int)
    (action_type ns resource : String) (success : Bool) (details : String) :
    Option Nat × HealState :=
  let lim :=
    { st.lim with action_history :=
        pruneHistory (st.lim.action_history ++
          [{ timestamp := now, action_type := action_type, ns := ns,
             resource := resource, success := success, details := details }]) now }
  match st.store with
  | some s =>
      let r1 := s.record_action now action_type ns resource success details
      let r2 := r1.2.record_agent_activity now "healing_action"
        (action_type ++ " " ++ ns ++ "/" ++ resource)
        (action_type ++ " executed")
        (some (if success then "success" else "failed"))
        (some details)
      (some r1.1, { lim := lim, store := some r2.2 })
  | none => (none, { lim := lim, store := none })

/-- `HealingActions.restart_pod`.  `deleteRes` is the outcome of the
`delete_namespaced_pod` collaborator call. -/
def restart_pod (st : HealState) (now : Int) (ns pod_name : String)
    (dry_run : Bool) (deleteRes : Except ApiErr Unit) : VerbOut :=
  let vt := "restart_pod"
  let gate := canPerformActionR st.lim now vt 1
  if !gate.1 then
    { res := { success := false, action := vt, ns := some ns,
               resource := some pod_name, error := some (reasonStr gate.2),
               dry_run := dry_run },
      st := st, calls := [], gateChecks := [(vt, 1)] }
  else if dry_run then
    { res := { success := true, action := vt, ns := some ns,
               resource := some pod_name,
               message := some "Dry run: Pod would be restarted",
               dry_run := true },
      st := st, calls := [], gateChecks := [(vt, 1)] }
  else
    match deleteRes with
    | .ok _ =>
        let r := limiterRecordAction st now vt ns pod_name true
          "Pod deleted for restart"
        { res := { success := true, action := vt, ns := some ns,
                   resource := some pod_name,
                   message := some "Pod deleted, controller will recreate it",
                   action_id := some r.1, dry_run := false },
          st := r.2, calls := [.deletePod ns pod_name 30],
          gateChecks := [(vt, 1)] }
    | .error e =>
        let msg := "Failed to restart pod: " ++ e.reason
        let r := limiterRecordAction st now vt ns pod_name false msg
        { res := { success := false, action := vt, ns := some ns,
                   resource := some pod_name, error := some msg,
                   action_id := some r.1, dry_run := dry_run },
          st := r.2, calls := [.deletePod ns pod_name 30],
          gateChecks := [(vt, 1)] }

/-- The `failed_pods` filter of `delete_failed_pods`: pods in phase
Failed, Succeeded or Unknown. -/
def failedOf (pods : List PodInfo) : List PodInfo :=
  pods.filter (fun p => ["Failed", "Succeeded", "Unknown"].contains p.phase)

/-- `HealingActions.delete_failed_pods`.  `listRes` is the outcome of
`list_namespaced_pod` (the label selector is folded into it);
`deleteFor` gives the outcome of `delete_namespaced_pod` per pod name. -/
def delete_failed_pods (st : HealState) (now : Int) (ns : String)
    (dry_run : Bool) (listRes : Except ApiErr (List PodInfo))
    (deleteFor : String → Except ApiErr Unit) : VerbOut :=
  let vt := "delete_failed_pods"
  match listRes with
  | .error e =>
      let msg := "Failed to delete failed pods: " ++ e.reason
      let r := limiterRecordAction st now vt ns "multiple" false msg
      { res := { success := false, action := vt, ns := some ns,
                 error := some msg, action_id := some r.1, dry_run := dry_run },
        st := r.2, calls := [], gateChecks := [] }
  | .ok podList =>
      let failed_pods := failedOf podList
      if failed_pods.isEmpty then
        { res := { success := true, action := vt, ns := some ns,
                   message := some "No failed pods found",
                   deleted_count := some 0, dry_run := dry_run },
          st := st, calls := [], gateChecks := [] }
      else
        let gate := canPerformActionR st.lim now vt failed_pods.length
        if !gate.1 then
          { res := { success := false, action := vt, ns := some ns,
                     error := some (reasonStr gate.2),
                     found_pods := some failed_pods.length,
                     dry_run := dry_run },
            st := st, calls := [], gateChecks := [(vt, failed_pods.length)] }
        else if dry_run then
          { res := { success := true, action := vt, ns := some ns,
                     message := some ("Dry run: Would delete " ++
                       toString failed_pods.length ++ " failed pods"),
                     pods := some (failed_pods.map (fun p => p.name)),
                     deleted_count := some failed_pods.length,
                     dry_run := true },
            st := st, calls := [], gateChecks := [(vt, failed_pods.length)] }
        else
          let deleted_pods :=
            (failed_pods.filter (fun p => exceptOk (deleteFor p.name))).map
              (fun p => p.name)
          let msg := "Deleted " ++ toString deleted_pods.length ++ " failed pods"
          let r := limiterRecordAction st now vt ns
            (toString deleted_pods.length ++ " pods") true msg
          { res := { success := true, action := vt, ns := some ns,
                     message := some msg,
                     deleted_pods := some deleted_pods,
                     deleted_count := some deleted_pods.length,
                     action_id := some r.1, dry_run := false },
            st := r.2,
            calls := failed_pods.map (fun p => .deletePod ns p.name 0),
            gateChecks := [(vt, failed_pods.length)] }

/-- `HealingActions.evict_pod_from_node`.  `evictRes` is the outcome of
`create_namespaced_pod_eviction`. -/
def evict_pod_from_node (st : HealState) (now : Int) (ns pod_name : String)
    (dry_run : Bool) (grace : Int) (evictRes : Except ApiErr Unit) : VerbOut :=
  let vt := "evict_pod_from_node"
  let gate := canPerformActionR st.lim now vt 1
  if !gate.1 then
    { res := { success := false, action := vt, ns := some ns,
               resource := some pod_name, error := some (reasonStr gate.2),
               dry_run := dry_run },
      st := st, calls := [], gateChecks := [(vt, 1)] }
  else if dry_run then
    { res := { success := true, action := vt, ns := some ns,
               resource := some pod_name,
               message := some "Dry run: Pod would be evicted from its node",
               dry_run := true },
      st := st, calls := [], gateChecks := [(vt, 1)] }
  else
    match evictRes with
    | .ok _ =>
        let r := limiterRecordAction st now vt ns pod_name true "Pod evicted"
        { res := { success := true, action := vt, ns := some ns,
                   resource := some pod_name,
                   message := some "Pod eviction requested successfully",
                   action_id := some r.1, dry_run := false },
          st := r.2, calls := [.evictPod ns pod_name grace],
          gateChecks := [(vt, 1)] }
    | .error e =>
        let msg := "Failed to evict pod: " ++ e.reason
        let r := limiterRecordAction st now vt ns pod_name false msg
        { res := { success := false, action := vt, ns := some ns,
                   resource := some pod_name, error := some msg,
                   action_id := some r.1, dry_run := dry_run },
          st := r.2, calls := [.evictPod ns pod_name grace],
          gateChecks := [(vt, 1)] }

/-- The skip predicate of `drain_node`'s pod loop. -/
def drainSkips (ignore_daemonsets include_kube_system : Bool)
    (p : PodInfo) : Bool :=
  (!include_kube_system && p.ns == "kube-system") || p.isMirror ||
    (ignore_daemonsets && p.ownerKinds.contains "DaemonSet")

/-- The `evictable_pods` of `drain_node`'s pod loop. -/
def evictableOf (ignore_daemonsets include_kube_system : Bool)
    (pods : List PodInfo) : List PodInfo :=
  pods.filter (fun p => !drainSkips ignore_daemonsets include_kube_system p)

/-- The `skipped_pods` strings of `drain_node`'s pod loop. -/
def skippedOf (ignore_daemonsets include_kube_system : Bool)
    (pods : List PodInfo) : List String :=
  (pods.filter (drainSkips ignore_daemonsets include_kube_system)).map
    (fun p => p.ns ++ "/" ++ p.name)

/-- `HealingActions.drain_node`.  `listRes` is the outcome of
`list_pod_for_all_namespaces`; `evictFor ns name` the outcome of the
per-pod `create_namespaced_pod_eviction`. -/
def drain_node (st : HealState) (now : Int) (node_name : String)
    (dry_run : Bool) (grace : Int)
    (ignore_daemonsets include_kube_system : Bool)
    (listRes : Except ApiErr (List PodInfo))
    (evictFor : String → String → Except ApiErr Unit) : VerbOut :=
  let vt := "drain_node"
  match listRes with
  | .error e =>
      let msg := "Failed to drain node: " ++ e.reason
      let r := limiterRecordAction st now vt "-" node_name false msg
      { res := { success := false, action := vt, resource := some node_name,
                 error := some msg, action_id := some r.1, dry_run := dry_run },
        st := r.2, calls := [], gateChecks := [] }
  | .ok podList =>
      let evictable := evictableOf ignore_daemonsets include_kube_system podList
      let skipped := skippedOf ignore_daemonsets include_kube_system podList
      if evictable.isEmpty then
        { res := { success := true, action := vt, resource := some node_name,
                   message := some "No evictable pods found on node",
                   evicted_count := some 0, skipped_pods := some skipped,
                   dry_run := dry_run },
          st := st, calls := [], gateChecks := [] }
      else
        let gate := canPerformActionR st.lim now vt evictable.length
        if dry_run then
          { res := { success := true, action := vt, resource := some node_name,
                     message := some ("Dry run: Would evict " ++
                       toString evictable.length ++ " pods from node"),
                     pods := some (evictable.map (fun p => p.ns ++ "/" ++ p.name)),
                     evicted_count := some evictable.length,
                     skipped_pods := some skipped,
                     would_be_blocked := some (!gate.1),
                     block_reason := some (if !gate.1 then some (reasonStr gate.2)
                       else none),
                     dry_run := true },
            st := st, calls := [], gateChecks := [(vt, evictable.length)] }
        else if !gate.1 then
          { res := { success := false, action := vt, resource := some node_name,
                     error := some (reasonStr gate.2),
                     found_pods := some evictable.length, dry_run := dry_run },
            st := st, calls := [], gateChecks := [(vt, evictable.length)] }
        else
          let evicted := (evictable.filter
              (fun p => exceptOk (evictFor p.ns p.name))).map
            (fun p => p.ns ++ "/" ++ p.name)
          let failedEv := evictable.filterMap (fun p =>
            match evictFor p.ns p.name with
            | .ok _ => none
            | .error e => some (p.ns ++ "/" ++ p.name, e.reason))
          let msg := "Evicted " ++ toString evicted.length ++ " pods from node"
          let r := limiterRecordAction st now vt "-" node_name true msg
          { res := { success := true, action := vt, resource := some node_name,
                     message := some msg, evicted_pods := some evicted,
                     evicted_count := some evicted.length,
                     failed_evictions := some failedEv,
                     skipped_pods := some skipped,
                     action_id := some r.1, dry_run := false },
            st := r.2,
            calls := evictable.map (fun p => .evictPod p.ns p.name grace),
            gateChecks := [(vt, evictable.length)] }

/-- `HealingActions.scale_deployment`.  `readRes` is the outcome of
`read_namespaced_deployment` (carrying `spec.replicas`); `patchRes` the
outcome of `patch_namespaced_deployment`. -/
def scale_deployment (st : HealState) (now : Int) (ns deployment_name : String)
    (replicas : Int) (dry_run : Bool) (readRes : Except ApiErr Int)
    (patchRes : Except ApiErr Unit) : VerbOut :=
  let vt := "scale_deployment"
  match readRes with
  | .error e =>
      let msg := "Failed to scale deployment: " ++ e.reason
      let r := limiterRecordAction st now vt ns deployment_name false msg
      { res := { success := false, action := vt, ns := some ns,
                 resource := some deployment_name, error := some msg,
                 action_id := some r.1, dry_run := dry_run },
        st := r.2, calls := [], gateChecks := [] }
  | .ok current_replicas =>
      if current_replicas = replicas then
        { res := { success := true, action := vt, ns := some ns,
                   resource := some deployment_name,
                   message := some ("Deployment already at " ++
                     toString replicas ++ " replicas"),
                   current_replicas := some current_replicas,
                   target_replicas := some replicas, dry_run := dry_run },
          st := st, calls := [], gateChecks := [] }
      else
        let affected := (replicas - current_replicas).natAbs
        let gate := canPerformActionR st.lim now vt affected
        if !gate.1 then
          { res := { success := false, action := vt, ns := some ns,
                     resource := some deployment_name,
                     error := some (reasonStr gate.2), dry_run := dry_run },
            st := st, calls := [], gateChecks := [(vt, affected)] }
        else if dry_run then
          { res := { success := true, action := vt, ns := some ns,
                     resource := some deployment_name,
                     message := some ("Dry run: Would scale from " ++
                       toString current_replicas ++ " to " ++
                       toString replicas ++ " replicas"),
                     current_replicas := some current_replicas,
                     target_replicas := some replicas, dry_run := true },
            st := st, calls := [], gateChecks := [(vt, affected)] }
        else
          match patchRes with
          | .ok _ =>
              let msg := "Scaled from " ++ toString current_replicas ++
                " to " ++ toString replicas
              let r := limiterRecordAction st now vt ns deployment_name true msg
              { res := { success := true, action := vt, ns := some ns,
                         resource := some deployment_name,
                         message := some (msg ++ " replicas"),
                         previous_replicas := some current_replicas,
                         current_replicas := some replicas,
                         action_id := some r.1, dry_run := false },
                st := r.2, calls := [.patchDeployment ns deployment_name],
                gateChecks := [(vt, affected)] }
          | .error e =>
              let msg := "Failed to scale deployment: " ++ e.reason
              let r := limiterRecordAction st now vt ns deployment_name false msg
              { res := { success := false, action := vt, ns := some ns,
                         resource := some deployment_name, error := some msg,
                         action_id := some r.1, dry_run := dry_run },
                st := r.2, calls := [.patchDeployment ns deployment_name],
                gateChecks := [(vt, affected)] }

/-- The `revision_msg` of `rollback_deployment`, including Python's
falsiness of `revision = 0`. -/
def revisionMsg : Option Int → String
  | some r => if r = 0 then "previous revision" else "revision " ++ toString r
  | none => "previous revision"

/-- `HealingActions.rollback_deployment`.  `readRes` is the outcome of
`read_namespaced_deployment`; `patchRes` of `patch_namespaced_deployment`
(the rollback-marker patch). -/
def rollback_deployment (st : HealState) (now : Int) (ns deployment_name : String)
    (revision : Option Int) (dry_run : Bool) (readRes : Except ApiErr Unit)
    (patchRes : Except ApiErr Unit) : VerbOut :=
  let vt := "rollback_deployment"
  let gate := canPerformActionR st.lim now vt 1
  if !gate.1 then
    { res := { success := false, action := vt, ns := some ns,
               resource := some deployment_name,
               error := some (reasonStr gate.2), dry_run := dry_run },
      st := st, calls := [], gateChecks := [(vt, 1)] }
  else if dry_run then
    { res := { success := true, action := vt, ns := some ns,
               resource := some deployment_name,
               message := some ("Dry run: Would rollback to " ++
                 revisionMsg revision),
               target_revision := some revision, dry_run := true },
      st := st, calls := [], gateChecks := [(vt, 1)] }
  else
    match readRes with
    | .error e =>
        let msg := "Failed to rollback deployment: " ++ e.reason
        let r := limiterRecordAction st now vt ns deployment_name false msg
        { res := { success := false, action := vt, ns := some ns,
                   resource := some deployment_name, error := some msg,
                   action_id := some r.1, dry_run := dry_run },
          st := r.2, calls := [], gateChecks := [(vt, 1)] }
    | .ok _ =>
        match patchRes with
        | .ok _ =>
            let r := limiterRecordAction st now vt ns deployment_name true
              ("Rolled back to " ++ revisionMsg revision)
            { res := { success := true, action := vt, ns := some ns,
                       resource := some deployment_name,
                       message := some ("Rolled back to " ++ revisionMsg revision),
                       target_revision := some revision,
                       action_id := some r.1, dry_run := false },
              st := r.2, calls := [.patchDeployment ns deployment_name],
              gateChecks := [(vt, 1)] }
        | .error e =>
            let msg := "Failed to rollback deployment: " ++ e.reason
            let r := limiterRecordAction st now vt ns deployment_name false msg
            { res := { success := false, action := vt, ns := some ns,
                       resource := some deployment_name, error := some msg,
                       action_id := some r.1, dry_run := dry_run },
              st := r.2, calls := [.patchDeployment ns deployment_name],
              gateChecks := [(vt, 1)] }

/-- `HealingActions.cordon_node`.  `readRes` is the outcome of `read_node`
(carrying `spec.unschedulable`); `patchRes` the outcome of `patch_node`. -/
def cordon_node (st : HealState) (now : Int) (node_name : String)
    (dry_run : Bool) (readRes : Except ApiErr Bool)
    (patchRes : Except ApiErr Unit) : VerbOut :=
  let vt := "cordon_node"
  let gate := canPerformActionR st.lim now vt 1
  if !gate.1 then
    { res := { success := false, action := vt, resource := some node_name,
               error := some (reasonStr gate.2), dry_run := dry_run },
      st := st, calls := [], gateChecks := [(vt, 1)] }
  else if dry_run then
    { res := { success := true, action := vt, resource := some node_name,
               message := some ("Dry run: Would mark node " ++ node_name ++
                 " as unschedulable"),
               dry_run := true },
      st := st, calls := [], gateChecks := [(vt, 1)] }
  else
    match readRes with
    | .error e =>
        let msg := "Failed to cordon node: " ++ e.reason
        let r := limiterRecordAction st now vt "-" node_name false msg
        { res := { success := false, action := vt, resource := some node_name,
                   error := some msg, action_id := some r.1,
                   dry_run := dry_run },
          st := r.2, calls := [], gateChecks := [(vt, 1)] }
    | .ok unschedulable =>
        if unschedulable then
          { res := { success := true, action := vt, resource := some node_name,
                     message := some ("Node " ++ node_name ++
                       " is already cordoned"),
                     dry_run := false },
            st := st, calls := [], gateChecks := [(vt, 1)] }
        else
          match patchRes with
          | .ok _ =>
              let r := limiterRecordAction st now vt "-" node_name true
                "Node cordoned"
              { res := { success := true, action := vt,
                         resource := some node_name,
                         message := some ("Node " ++ node_name ++
                           " marked as unschedulable"),
                         action_id := some r.1, dry_run := false },
                st := r.2, calls := [.patchNode node_name],
                gateChecks := [(vt, 1)] }
          | .error e =>
              let msg := "Failed to cordon node: " ++ e.reason
              let r := limiterRecordAction st now vt "-" node_name false msg
              { res := { success := false, action := vt,
                         resource := some node_name, error := some msg,
                         action_id := some r.1, dry_run := dry_run },
                st := r.2, calls := [.patchNode node_name],
                gateChecks := [(vt, 1)] }

/-- `HealingActions.uncordon_node` — note: no gate consultation at all. -/
def uncordon_node (st : HealState) (now : Int) (node_name : String)
    (dry_run : Bool) (readRes : Except ApiErr Bool)
    (patchRes : Except ApiErr Unit) : VerbOut :=
  let vt := "uncordon_node"
  if dry_run then
    { res := { success := true, action := vt, resource := some node_name,
               message := some ("Dry run: Would mark node " ++ node_name ++
                 " as schedulable"),
               dry_run := true },
      st := st, calls := [], gateChecks := [] }
  else
    match readRes with
    | .error e =>
        let msg := "Failed to uncordon node: " ++ e.reason
        let r := limiterRecordAction st now vt "-" node_name false msg
        { res := { success := false, action := vt, resource := some node_name,
                   error := some msg, action_id := some r.1,
                   dry_run := dry_run },
          st := r.2, calls := [], gateChecks := [] }
    | .ok unschedulable =>
        if !unschedulable then
          { res := { success := true, action := vt, resource := some node_name,
                     message := some ("Node " ++ node_name ++
                       " is already schedulable"),
                     dry_run := false },
            st := st, calls := [], gateChecks := [] }
        else
          match patchRes with
          | .ok _ =>
              let r := limiterRecordAction st now vt "-" node_name true
                "Node uncordoned"
              { res := { success := true, action := vt,
                         resource := some node_name,
                         message := some ("Node " ++ node_name ++
                           " marked as schedulable"),
                         action_id := some r.1, dry_run := false },
                st := r.2, calls := [.patchNode node_name],
                gateChecks := [] }
          | .error e =>
              let msg := "Failed to uncordon node: " ++ e.reason
              let r := limiterRecordAction st now vt "-" node_name false msg
              { res := { success := false, action := vt,
                         resource := some node_name, error := some msg,
                         action_id := some r.1, dry_run := dry_run },
                st := r.2, calls := [.patchNode node_name],
                gateChecks := [] }

/-! ## Derived shapes used to state the claims -/

/-- The store after `HealingActionLimiter.record_action` has written the
`healing_actions` row and the companion `agent_activity` row. -/
def recordedStore (s : Store) (now : Int) (vt ns resource : String)
    (success : Bool) (details : String) : Store :=
  { s with
    actions := s.actions ++
      [{ id := s.nextActionId, timestamp := now, action_type := vt, ns := ns,
         resource := resource, success := success, details := details,
         problem_id := s.ctxProblemId, outcome := none,
         resolution_time_seconds := none, notes := none }],
    nextActionId := s.nextActionId + 1,
    activities := s.activities ++
      [{ id := s.nextActivityId, timestamp := now, intent := "healing_action",
         inputs_summary := vt ++ " " ++ ns ++ "/" ++ resource,
         action_taken := vt ++ " executed",
         outcome := some (if success then "success" else "failed"),
         notes := some details, problem_id := s.ctxProblemId }],
    nextActivityId := s.nextActivityId + 1 }

/-- A verb outcome that surfaced an error message and durably recorded the
attempt as a failed action with that message as `details`. -/
def recordsFailedAction (s : Store) (now : Int) (vt ns resource msg : String)
    (out : VerbOut) : Prop :=
  out.res.success = false ∧ out.res.error = some msg ∧
  out.res.action_id = some (some s.nextActionId) ∧
  out.st.store = some (recordedStore s now vt ns resource false msg)

/-! ## Concrete states used by counterexamples and witnesses -/

/-- A successful log entry of the given type at the given time. -/
def exEntry (t : Int) (ty : String) : LogEntry :=
  { timestamp := t, action_type := ty, ns := "prod", resource := "web",
    success := true, details := "ok" }

/-- An empty store. -/
def exStore0 : Store :=
  { actions := [], nextActionId := 1, problems := [], nextProblemId := 1,
    activities := [], nextActivityId := 1, ctxProblemId := none }

/-- A limiter with an empty history. -/
def exLimFresh : Limiter := { action_history := [] }

/-- A limiter whose last `restart_pod` was 120 seconds before t = 1000000. -/
def exLimCdRestart : Limiter := { action_history := [exEntry 999880 "restart_pod"] }

/-- A limiter whose last `cordon_node` was 120 seconds before t = 1000000. -/
def exLimCdCordon : Limiter := { action_history := [exEntry 999880 "cordon_node"] }

/-- A limiter with ten entries inside the trailing hour at t = 1000000. -/
def exLimRate : Limiter :=
  { action_history := (List.range 10).map (fun i => exEntry (999000 + i) "restart_pod") }

/-- One open problem created inside the 24-hour window before t = 1000000. -/
def exProblem : ProblemRow :=
  { id := 1, created_at := 999500, title := "CrashLoop", ns := none,
    resource := none, severity := none, status := "open", summary := none,
    fingerprint := some "fp-1", last_updated := 999500 }

/-- A store holding exactly `exProblem`. -/
def exStoreP : Store := { exStore0 with problems := [exProblem], nextProblemId := 2 }

/-- A `healing_actions` row for the stats example. -/
def exARow (i : Nat) (t : Int) (ty : String) (succ : Bool) (res : Option ℚ) :
    ActionRow :=
  { id := i, timestamp := t, action_type := ty, ns := "prod", resource := "web",
    success := succ, details := "d", problem_id := none, outcome := none,
    resolution_time_seconds := res, notes := none }

/-- The store of the stats-aggregation example: exactly
`[(A,true,10s), (A,false,null), (B,true,20s)]` inside the window. -/
def exStatsStore : Store :=
  { exStore0 with
    actions := [exARow 1 100 "A" true (some 10), exARow 2 200 "A" false none,
                exARow 3 300 "B" true (some 20)],
    nextActionId := 4 }

/-- A pod in phase Failed. -/
def exPodFailed : PodInfo :=
  { name := "p1", ns := "prod", phase := "Failed", isMirror := false,
    ownerKinds := ["ReplicaSet"] }

/-- A second pod in phase Failed. -/
def exPodFailed2 : PodInfo :=
  { name := "p2", ns := "prod", phase := "Failed", isMirror := false,
    ownerKinds := ["ReplicaSet"] }

/-- An ordinary running pod (evictable during a drain). -/
def exPodRunning : PodInfo :=
  { name := "p3", ns := "prod", phase := "Running", isMirror := false,
    ownerKinds := ["ReplicaSet"] }

/-- A sample API error. -/
def exErr : ApiErr := { reason := "NotFound" }

/-- The row inserted by `create_problem` when `get_or_create_problem`
is called with only title and fingerprint (all other arguments at their
defaults). -/
def createdRow (s : Store) (now : Int) (title fp : String) : ProblemRow :=
  { id := s.nextProblemId, created_at := now, title := title, ns := none,
    resource := none, severity := none, status := "open", summary := none,
    fingerprint := some fp, last_updated := now }

/-- The store after that insertion. -/
def createdStore (s : Store) (now : Int) (title fp : String) : Store :=
  { s with
    problems := s.problems ++ [createdRow s now title fp],
    nextProblemId := s.nextProblemId + 1 }

/-! # Theorems -/

/-- Membership through `insertBy`. -/
theorem mem_insertBy {α : Type} (le : α → α → Bool) (a x : α) (l : List α) :
    x ∈ insertBy le a l ↔ x = a ∨ x ∈ l := by
  induction l with
  | nil => simp [insertBy]
  | cons y ys ih =>
      simp only [insertBy]
      split
      · simp
      · simp only [List.mem_cons, ih]
        tauto

/-- Membership through `sortBy`. -/
theorem mem_sortBy {α : Type} (le : α → α → Bool) (x : α) (l : List α) :
    x ∈ sortBy le l ↔ x ∈ l := by
  induction l with
  | nil => simp [sortBy]
  | cons y ys ih => simp [sortBy, mem_insertBy, ih]

/-- `insertBy` never produces the empty list. -/
theorem insertBy_ne_nil {α : Type} (le : α → α → Bool) (a : α) (l : List α) :
    insertBy le a l ≠ [] := by
  cases l with
  | nil => simp [insertBy]
  | cons y ys =>
      simp only [insertBy]
      by_cases h : le a y <;> simp [h]

/-- `sortBy` yields the empty list exactly on the empty list. -/
theorem sortBy_eq_nil {α : Type} (le : α → α → Bool) (l : List α) :
    sortBy le l = [] ↔ l = [] := by
  cases l with
  | nil => simp [sortBy]
  | cons y ys => simp [sortBy, insertBy_ne_nil]

/-- C2 (code bug): `exStoreP` holds exactly one problem inside the
24-hour window at t = 1000000, yet `list_problems` does not return a
list at all — the SELECT yields nine columns while
`_row_to_problem_dict` reads `row[9]`, so the call raises `IndexError`
(modelled as `none`) whenever at least one problem lies in the window,
contradicting "`list_problems(hours, limit)` returns a list of Problem
records ... it returns normally whenever at least one problem lies in
the window". -/
theorem C2_list_problems_raises :
    (exStoreP.problems.filter
        (fun r => decide (r.created_at ≥ 1000000 - 3600 * (24 : Int)))).length = 1 ∧
    exStoreP.list_problems 1000000 24 50 = none := by decide

/-- C4 (counterexample): with ten admission-log entries inside the
trailing hour, `can_perform_action("x", max_pods_per_action + 1)` is
denied with the rate-limit reason, not the blast-radius one — the
global-rate check runs first, so the claim's "regardless of how many
entries the recent history holds" is false. -/
theorem C4_counterexample :
    (canPerformActionR exLimRate 1000000 "x" 6).2 = .rateLimit 10 10 ∧
    (canPerformActionR exLimRate 1000000 "x" 6).2 ≠ .blastRadius 6 5 := by
  decide

/-- C4 (amended): provided fewer than `max_actions_per_hour` entries lie
in the trailing hour, `can_perform_action("x", max_pods_per_action + 1)`
is denied with the blast-radius reason, regardless of any cooldown
state. -/
theorem C4_blast_radius (l : Limiter) (now : Int) (t : String)
    (h : (recentActions l now).length < l.max_actions_per_hour) :
    canPerformActionR l now t (l.max_pods_per_action + 1) =
      (false, .blastRadius (l.max_pods_per_action + 1) l.max_pods_per_action) := by
  simp only [canPerformActionR]
  rw [if_neg (Nat.not_le.mpr h), if_pos (Nat.lt_succ_self _)]

/-- C4 witness: the amended statement at a fresh limiter. -/
theorem C4_witness :
    canPerformActionR exLimFresh 1000000 "x" (exLimFresh.max_pods_per_action + 1) =
      (false, .blastRadius (exLimFresh.max_pods_per_action + 1)
        exLimFresh.max_pods_per_action) :=
  C4_blast_radius exLimFresh 1000000 "x" (by decide)

/-- C1 (counterexample): at t = 1000000 with a `restart_pod` entry 120
seconds old, `restart_pod` is denied by the cooldown rule and returns
`success = false` with the denial reason — but the store is returned
unchanged with an empty `healing_actions` table: the denial is NOT
recorded to the durable store as a failed action, contradicting the
claim that every denial appears in history and stats. -/
theorem C1_counterexample :
    (restart_pod ⟨exLimCdRestart, some exStore0⟩ 1000000 "prod" "web-1" false
        (.ok ())).res.success = false ∧
    (restart_pod ⟨exLimCdRestart, some exStore0⟩ 1000000 "prod" "web-1" false
        (.ok ())).res.error =
      some "Cooldown active: 3.0 minutes remaining for restart_pod" ∧
    (restart_pod ⟨exLimCdRestart, some exStore0⟩ 1000000 "prod" "web-1" false
        (.ok ())).st.store = some exStore0 ∧
    exStore0.actions = [] := by
  refine ⟨?_, ?_, ?_, ?_⟩ <;> with_unfolding_all rfl

/-- C1 (amended): for every executor verb, a gate denial returns
`{success: false, error: <denial reason>}` and leaves the limiter log,
the durable store and the cluster entirely untouched — the denial is
NOT recorded anywhere, so it does not appear in history or stats. -/
theorem C1_denial_unrecorded :
    (∀ (st : HealState) (now : Int) (ns pod : String) (dry : Bool)
        (del : Except ApiErr Unit),
      (canPerformActionR st.lim now "restart_pod" 1).1 = false →
      restart_pod st now ns pod dry del =
        ⟨{ success := false, action := "restart_pod", ns := some ns,
           resource := some pod,
           error := some (reasonStr (canPerformActionR st.lim now "restart_pod" 1).2),
           dry_run := dry }, st, [], [("restart_pod", 1)]⟩) ∧
    (∀ (st : HealState) (now : Int) (ns : String) (dry : Bool)
        (pods : List PodInfo) (delFor : String → Except ApiErr Unit),
      failedOf pods ≠ [] →
      (canPerformActionR st.lim now "delete_failed_pods" (failedOf pods).length).1
          = false →
      delete_failed_pods st now ns dry (.ok pods) delFor =
        ⟨{ success := false, action := "delete_failed_pods", ns := some ns,
           error := some (reasonStr (canPerformActionR st.lim now
             "delete_failed_pods" (failedOf pods).length).2),
           found_pods := some (failedOf pods).length, dry_run := dry }, st, [],
         [("delete_failed_pods", (failedOf pods).length)]⟩) ∧
    (∀ (st : HealState) (now : Int) (ns pod : String) (dry : Bool) (grace : Int)
        (ev : Except ApiErr Unit),
      (canPerformActionR st.lim now "evict_pod_from_node" 1).1 = false →
      evict_pod_from_node st now ns pod dry grace ev =
        ⟨{ success := false, action := "evict_pod_from_node", ns := some ns,
           resource := some pod,
           error := some (reasonStr (canPerformActionR st.lim now
             "evict_pod_from_node" 1).2),
           dry_run := dry }, st, [], [("evict_pod_from_node", 1)]⟩) ∧
    (∀ (st : HealState) (now : Int) (node : String) (grace : Int)
        (ig ik : Bool) (pods : List PodInfo)
        (evFor : String → String → Except ApiErr Unit),
      evictableOf ig ik pods ≠ [] →
      (canPerformActionR st.lim now "drain_node" (evictableOf ig ik pods).length).1
          = false →
      drain_node st now node false grace ig ik (.ok pods) evFor =
        ⟨{ success := false, action := "drain_node", resource := some node,
           error := some (reasonStr (canPerformActionR st.lim now
             "drain_node" (evictableOf ig ik pods).length).2),
           found_pods := some (evictableOf ig ik pods).length,
           dry_run := false }, st, [],
         [("drain_node", (evictableOf ig ik pods).length)]⟩) ∧
    (∀ (st : HealState) (now : Int) (ns d : String) (replicas cur : Int)
        (dry : Bool) (patch : Except ApiErr Unit),
      cur ≠ replicas →
      (canPerformActionR st.lim now "scale_deployment"
          (replicas - cur).natAbs).1 = false →
      scale_deployment st now ns d replicas dry (.ok cur) patch =
        ⟨{ success := false, action := "scale_deployment", ns := some ns,
           resource := some d,
           error := some (reasonStr (canPerformActionR st.lim now
             "scale_deployment" (replicas - cur).natAbs).2),
           dry_run := dry }, st, [],
         [("scale_deployment", (replicas - cur).natAbs)]⟩) ∧
    (∀ (st : HealState) (now : Int) (ns d : String) (rev : Option Int)
        (dry : Bool) (rd patch : Except ApiErr Unit),
      (canPerformActionR st.lim now "rollback_deployment" 1).1 = false →
      rollback_deployment st now ns d rev dry rd patch =
        ⟨{ success := false, action := "rollback_deployment", ns := some ns,
           resource := some d,
           error := some (reasonStr (canPerformActionR st.lim now
             "rollback_deployment" 1).2),
           dry_run := dry }, st, [], [("rollback_deployment", 1)]⟩) ∧
    (∀ (st : HealState) (now : Int) (node : String) (dry : Bool)
        (rd : Except ApiErr Bool) (patch : Except ApiErr Unit),
      (canPerformActionR st.lim now "cordon_node" 1).1 = false →
      cordon_node st now node dry rd patch =
        ⟨{ success := false, action := "cordon_node", resource := some node,
           error := some (reasonStr (canPerformActionR st.lim now
             "cordon_node" 1).2),
           dry_run := dry }, st, [], [("cordon_node", 1)]⟩) := by
  refine ⟨?_, ?_, ?_, ?_, ?_, ?_, ?_⟩
  · intro st now ns pod dry del h
    simp [restart_pod, h]
  · intro st now ns dry pods delFor hne h
    simp [delete_failed_pods, List.isEmpty_iff, hne, h]
  · intro st now ns pod dry grace ev h
    simp [evict_pod_from_node, h]
  · intro st now node grace ig ik pods evFor hne h
    simp [drain_node, List.isEmpty_iff, hne, h]
  · intro st now ns d replicas cur dry patch hne h
    simp [scale_deployment, hne, h]
  · intro st now ns d rev dry rd patch h
    simp [rollback_deployment, h]
  · intro st now node dry rd patch h
    simp [cordon_node, h]

/-- C1 witness: all seven denial branches exercised with a rate-limited
limiter over an empty store. -/
theorem C1_witness :
    (restart_pod ⟨exLimRate, some exStore0⟩ 1000000 "prod" "p" false (.ok ()) =
      ⟨{ success := false, action := "restart_pod", ns := some "prod",
         resource := some "p",
         error := some (reasonStr (canPerformActionR exLimRate 1000000
           "restart_pod" 1).2),
         dry_run := false }, ⟨exLimRate, some exStore0⟩, [],
       [("restart_pod", 1)]⟩) ∧
    (delete_failed_pods ⟨exLimRate, some exStore0⟩ 1000000 "prod" false
        (.ok [exPodFailed]) (fun _ => .ok ()) =
      ⟨{ success := false, action := "delete_failed_pods", ns := some "prod",
         error := some (reasonStr (canPerformActionR exLimRate 1000000
           "delete_failed_pods" (failedOf [exPodFailed]).length).2),
         found_pods := some (failedOf [exPodFailed]).length, dry_run := false },
       ⟨exLimRate, some exStore0⟩, [],
       [("delete_failed_pods", (failedOf [exPodFailed]).length)]⟩) ∧
    (evict_pod_from_node ⟨exLimRate, some exStore0⟩ 1000000 "prod" "p" false 30
        (.ok ()) =
      ⟨{ success := false, action := "evict_pod_from_node", ns := some "prod",
         resource := some "p",
         error := some (reasonStr (canPerformActionR exLimRate 1000000
           "evict_pod_from_node" 1).2),
         dry_run := false }, ⟨exLimRate, some exStore0⟩, [],
       [("evict_pod_from_node", 1)]⟩) ∧
    (drain_node ⟨exLimRate, some exStore0⟩ 1000000 "n1" false 30 true false
        (.ok [exPodRunning]) (fun _ _ => .ok ()) =
      ⟨{ success := false, action := "drain_node", resource := some "n1",
         error := some (reasonStr (canPerformActionR exLimRate 1000000
           "drain_node" (evictableOf true false [exPodRunning]).length).2),
         found_pods := some (evictableOf true false [exPodRunning]).length,
         dry_run := false }, ⟨exLimRate, some exStore0⟩, [],
       [("drain_node", (evictableOf true false [exPodRunning]).length)]⟩) ∧
    (scale_deployment ⟨exLimRate, some exStore0⟩ 1000000 "prod" "api" 3 false
        (.ok 1) (.ok ()) =
      ⟨{ success := false, action := "scale_deployment", ns := some "prod",
         resource := some "api",
         error := some (reasonStr (canPerformActionR exLimRate 1000000
           "scale_deployment" ((3 : Int) - 1).natAbs).2),
         dry_run := false }, ⟨exLimRate, some exStore0⟩, [],
       [("scale_deployment", ((3 : Int) - 1).natAbs)]⟩) ∧
    (rollback_deployment ⟨exLimRate, some exStore0⟩ 1000000 "prod" "api" none
        false (.ok ()) (.ok ()) =
      ⟨{ success := false, action := "rollback_deployment", ns := some "prod",
         resource := some "api",
         error := some (reasonStr (canPerformActionR exLimRate 1000000
           "rollback_deployment" 1).2),
         dry_run := false }, ⟨exLimRate, some exStore0⟩, [],
       [("rollback_deployment", 1)]⟩) ∧
    (cordon_node ⟨exLimRate, some exStore0⟩ 1000000 "n1" false (.ok false)
        (.ok ()) =
      ⟨{ success := false, action := "cordon_node", resource := some "n1",
         error := some (reasonStr (canPerformActionR exLimRate 1000000
           "cordon_node" 1).2),
         dry_run := false }, ⟨exLimRate, some exStore0⟩, [],
       [("cordon_node", 1)]⟩) :=
  ⟨C1_denial_unrecorded.1 ⟨exLimRate, some exStore0⟩ 1000000 "prod" "p" false
      (.ok ()) (by decide),
   C1_denial_unrecorded.2.1 ⟨exLimRate, some exStore0⟩ 1000000 "prod" false
      [exPodFailed] (fun _ => .ok ()) (by decide) (by decide),
   C1_denial_unrecorded.2.2.1 ⟨exLimRate, some exStore0⟩ 1000000 "prod" "p"
      false 30 (.ok ()) (by decide),
   C1_denial_unrecorded.2.2.2.1 ⟨exLimRate, some exStore0⟩ 1000000 "n1" 30
      true false [exPodRunning] (fun _ _ => .ok ()) (by decide) (by decide),
   C1_denial_unrecorded.2.2.2.2.1 ⟨exLimRate, some exStore0⟩ 1000000 "prod"
      "api" 3 1 false (.ok ()) (by decide) (by decide),
   C1_denial_unrecorded.2.2.2.2.2.1 ⟨exLimRate, some exStore0⟩ 1000000 "prod"
      "api" none false (.ok ()) (.ok ()) (by decide),
   C1_denial_unrecorded.2.2.2.2.2.2 ⟨exLimRate, some exStore0⟩ 1000000 "n1"
      false (.ok false) (.ok ()) (by decide)⟩

/-- C3 (counterexample): with a `cordon_node` entry 120 seconds old (so
the gate is in cooldown), `cordon_node` on a node that is already
unschedulable consults `can_perform_action` — and, because the gate is
consulted before the already-cordoned check, the call fails instead of
succeeding as a no-op, contradicting the claim that it "never consults
can_perform_action ... returning success as a no-op". -/
theorem C3_counterexample :
    (cordon_node ⟨exLimCdCordon, some exStore0⟩ 1000000 "n1" false (.ok true)
        (.ok ())).res.success = false ∧
    (cordon_node ⟨exLimCdCordon, some exStore0⟩ 1000000 "n1" false (.ok true)
        (.ok ())).gateChecks = [("cordon_node", 1)] := by
  refine ⟨?_, ?_⟩ <;> with_unfolding_all rfl

/-- C3 (amended): `scale_deployment` with `replicas` equal to the current
replica count never consults the gate, never issues a mutating call and
succeeds as a no-op; `cordon_node` on an already-unschedulable node
consults the gate first — when admitted it succeeds as a no-op without
mutating the cluster, when denied it returns failure. -/
theorem C3_noop_semantics :
    (∀ (st : HealState) (now : Int) (ns d : String) (r : Int) (dry : Bool)
        (patch : Except ApiErr Unit),
      scale_deployment st now ns d r dry (.ok r) patch =
        ⟨{ success := true, action := "scale_deployment", ns := some ns,
           resource := some d,
           message := some ("Deployment already at " ++ toString r ++
             " replicas"),
           current_replicas := some r, target_replicas := some r,
           dry_run := dry }, st, [], []⟩) ∧
    (∀ (st : HealState) (now : Int) (node : String)
        (patch : Except ApiErr Unit),
      (canPerformActionR st.lim now "cordon_node" 1).1 = true →
      cordon_node st now node false (.ok true) patch =
        ⟨{ success := true, action := "cordon_node", resource := some node,
           message := some ("Node " ++ node ++ " is already cordoned"),
           dry_run := false }, st, [], [("cordon_node", 1)]⟩) ∧
    (∀ (st : HealState) (now : Int) (node : String) (dry : Bool)
        (rd : Except ApiErr Bool) (patch : Except ApiErr Unit),
      (canPerformActionR st.lim now "cordon_node" 1).1 = false →
      (cordon_node st now node dry rd patch).res.success = false ∧
      (cordon_node st now node dry rd patch).gateChecks =
        [("cordon_node", 1)]) := by
  refine ⟨?_, ?_, ?_⟩
  · intro st now ns d r dry patch
    simp [scale_deployment]
  · intro st now node patch h
    simp [cordon_node, h]
  · intro st now node dry rd patch h
    simp [cordon_node, h]

/-- C3 witness: the no-op branches exercised concretely — the no-op scale
and the admitted cordon on an already-cordoned node, plus the denied
cordon on an already-cordoned node. -/
theorem C3_witness :
    (scale_deployment ⟨exLimFresh, some exStore0⟩ 1000000 "prod" "api" 3 false
        (.ok 3) (.ok ()) =
      ⟨{ success := true, action := "scale_deployment", ns := some "prod",
         resource := some "api",
         message := some ("Deployment already at " ++ toString (3 : Int) ++
           " replicas"),
         current_replicas := some 3, target_replicas := some 3,
         dry_run := false }, ⟨exLimFresh, some exStore0⟩, [], []⟩) ∧
    (cordon_node ⟨exLimFresh, some exStore0⟩ 1000000 "n1" false (.ok true)
        (.ok ()) =
      ⟨{ success := true, action := "cordon_node", resource := some "n1",
         message := some ("Node " ++ "n1" ++ " is already cordoned"),
         dry_run := false }, ⟨exLimFresh, some exStore0⟩, [],
       [("cordon_node", 1)]⟩) ∧
    ((cordon_node ⟨exLimRate, some exStore0⟩ 1000000 "n1" false (.ok true)
        (.ok ())).res.success = false ∧
      (cordon_node ⟨exLimRate, some exStore0⟩ 1000000 "n1" false (.ok true)
        (.ok ())).gateChecks = [("cordon_node", 1)]) :=
  ⟨C3_noop_semantics.1 ⟨exLimFresh, some exStore0⟩ 1000000 "prod" "api" 3 false
      (.ok ()),
   C3_noop_semantics.2.1 ⟨exLimFresh, some exStore0⟩ 1000000 "n1" (.ok ())
      (by decide),
   C3_noop_semantics.2.2 ⟨exLimRate, some exStore0⟩ 1000000 "n1" false
      (.ok true) (.ok ()) (by decide)⟩

/-- `HealingActionLimiter.record_action` against a configured store:
returns the fresh row id and threads the recorded store. -/
theorem limiterRecordAction_some (lim : Limiter) (s : Store) (now : Int)
    (vt ns resource : String) (success : Bool) (details : String) :
    limiterRecordAction ⟨lim, some s⟩ now vt ns resource success details =
      (some s.nextActionId,
       ⟨{ lim with action_history :=
            pruneHistory (lim.action_history ++
              [{ timestamp := now, action_type := vt, ns := ns,
                 resource := resource, success := success,
                 details := details }]) now },
        some (recordedStore s now vt ns resource success details)⟩) := rfl

/-- C5: every collaborator `ApiException` that aborts an executor verb is
caught at the verb boundary, recorded to the durable store as a failed
action whose `details` is the formatted error message, and surfaced as a
structured `{success: false, error: <reason>}` result — each verb is a
total function into `VerbOut`, so the exception never escapes to the
caller.  Covered injection points: `restart_pod` (delete),
`delete_failed_pods` (list), `evict_pod_from_node` (evict), `drain_node`
(list), `scale_deployment` (read and patch), `rollback_deployment` (read
and patch), `cordon_node` (read and patch), `uncordon_node` (read and
patch); per-pod errors inside the deletion/eviction batches are handled
separately (see C10 and the drain contract). -/
theorem C5_api_errors_caught :
    (∀ (lim : Limiter) (s : Store) (now : Int) (ns pod : String) (e : ApiErr),
      (canPerformActionR lim now "restart_pod" 1).1 = true →
      recordsFailedAction s now "restart_pod" ns pod
        ("Failed to restart pod: " ++ e.reason)
        (restart_pod ⟨lim, some s⟩ now ns pod false (.error e))) ∧
    (∀ (lim : Limiter) (s : Store) (now : Int) (ns : String) (dry : Bool)
        (delFor : String → Except ApiErr Unit) (e : ApiErr),
      recordsFailedAction s now "delete_failed_pods" ns "multiple"
        ("Failed to delete failed pods: " ++ e.reason)
        (delete_failed_pods ⟨lim, some s⟩ now ns dry (.error e) delFor)) ∧
    (∀ (lim : Limiter) (s : Store) (now : Int) (ns pod : String) (grace : Int)
        (e : ApiErr),
      (canPerformActionR lim now "evict_pod_from_node" 1).1 = true →
      recordsFailedAction s now "evict_pod_from_node" ns pod
        ("Failed to evict pod: " ++ e.reason)
        (evict_pod_from_node ⟨lim, some s⟩ now ns pod false grace (.error e))) ∧
    (∀ (lim : Limiter) (s : Store) (now : Int) (node : String) (dry : Bool)
        (grace : Int) (ig ik : Bool)
        (evFor : String → String → Except ApiErr Unit) (e : ApiErr),
      recordsFailedAction s now "drain_node" "-" node
        ("Failed to drain node: " ++ e.reason)
        (drain_node ⟨lim, some s⟩ now node dry grace ig ik (.error e) evFor)) ∧
    (∀ (lim : Limiter) (s : Store) (now : Int) (ns d : String)
        (replicas : Int) (dry : Bool) (patch : Except ApiErr Unit) (e : ApiErr),
      recordsFailedAction s now "scale_deployment" ns d
        ("Failed to scale deployment: " ++ e.reason)
        (scale_deployment ⟨lim, some s⟩ now ns d replicas dry (.error e)
          patch)) ∧
    (∀ (lim : Limiter) (s : Store) (now : Int) (ns d : String)
        (replicas cur : Int) (e : ApiErr),
      cur ≠ replicas →
      (canPerformActionR lim now "scale_deployment"
          (replicas - cur).natAbs).1 = true →
      recordsFailedAction s now "scale_deployment" ns d
        ("Failed to scale deployment: " ++ e.reason)
        (scale_deployment ⟨lim, some s⟩ now ns d replicas false (.ok cur)
          (.error e))) ∧
    (∀ (lim : Limiter) (s : Store) (now : Int) (ns d : String)
        (rev : Option Int) (patch : Except ApiErr Unit) (e : ApiErr),
      (canPerformActionR lim now "rollback_deployment" 1).1 = true →
      recordsFailedAction s now "rollback_deployment" ns d
        ("Failed to rollback deployment: " ++ e.reason)
        (rollback_deployment ⟨lim, some s⟩ now ns d rev false (.error e)
          patch)) ∧
    (∀ (lim : Limiter) (s : Store) (now : Int) (ns d : String)
        (rev : Option Int) (e : ApiErr),
      (canPerformActionR lim now "rollback_deployment" 1).1 = true →
      recordsFailedAction s now "rollback_deployment" ns d
        ("Failed to rollback deployment: " ++ e.reason)
        (rollback_deployment ⟨lim, some s⟩ now ns d rev false (.ok ())
          (.error e))) ∧
    (∀ (lim : Limiter) (s : Store) (now : Int) (node : String)
        (patch : Except ApiErr Unit) (e : ApiErr),
      (canPerformActionR lim now "cordon_node" 1).1 = true →
      recordsFailedAction s now "cordon_node" "-" node
        ("Failed to cordon node: " ++ e.reason)
        (cordon_node ⟨lim, some s⟩ now node false (.error e) patch)) ∧
    (∀ (lim : Limiter) (s : Store) (now : Int) (node : String) (e : ApiErr),
      (canPerformActionR lim now "cordon_node" 1).1 = true →
      recordsFailedAction s now "cordon_node" "-" node
        ("Failed to cordon node: " ++ e.reason)
        (cordon_node ⟨lim, some s⟩ now node false (.ok false) (.error e))) ∧
    (∀ (lim : Limiter) (s : Store) (now : Int) (node : String)
        (patch : Except ApiErr Unit) (e : ApiErr),
      recordsFailedAction s now "uncordon_node" "-" node
        ("Failed to uncordon node: " ++ e.reason)
        (uncordon_node ⟨lim, some s⟩ now node false (.error e) patch)) ∧
    (∀ (lim : Limiter) (s : Store) (now : Int) (node : String) (e : ApiErr),
      recordsFailedAction s now "uncordon_node" "-" node
        ("Failed to uncordon node: " ++ e.reason)
        (uncordon_node ⟨lim, some s⟩ now node false (.ok true) (.error e))) := by
  refine ⟨?_, ?_, ?_, ?_, ?_, ?_, ?_, ?_, ?_, ?_, ?_, ?_⟩
  · intro lim s now ns pod e h
    simp [restart_pod, h, recordsFailedAction, limiterRecordAction_some]
  · intro lim s now ns dry delFor e
    simp [delete_failed_pods, recordsFailedAction, limiterRecordAction_some]
  · intro lim s now ns pod grace e h
    simp [evict_pod_from_node, h, recordsFailedAction, limiterRecordAction_some]
  · intro lim s now node dry grace ig ik evFor e
    simp [drain_node, recordsFailedAction, limiterRecordAction_some]
  · intro lim s now ns d replicas dry patch e
    simp [scale_deployment, recordsFailedAction, limiterRecordAction_some]
  · intro lim s now ns d replicas cur e hne h
    simp [scale_deployment, hne, h, recordsFailedAction,
      limiterRecordAction_some]
  · intro lim s now ns d rev patch e h
    simp [rollback_deployment, h, recordsFailedAction, limiterRecordAction_some]
  · intro lim s now ns d rev e h
    simp [rollback_deployment, h, recordsFailedAction, limiterRecordAction_some]
  · intro lim s now node patch e h
    simp [cordon_node, h, recordsFailedAction, limiterRecordAction_some]
  · intro lim s now node e h
    simp [cordon_node, h, recordsFailedAction, limiterRecordAction_some]
  · intro lim s now node patch e
    simp [uncordon_node, recordsFailedAction, limiterRecordAction_some]
  · intro lim s now node e
    simp [uncordon_node, recordsFailedAction, limiterRecordAction_some]

/-- C5 witness: every covered injection point exercised with a fresh
limiter, an empty store and a NotFound error. -/
theorem C5_witness :
    recordsFailedAction exStore0 1000000 "restart_pod" "prod" "p"
      ("Failed to restart pod: " ++ exErr.reason)
      (restart_pod ⟨exLimFresh, some exStore0⟩ 1000000 "prod" "p" false
        (.error exErr)) ∧
    recordsFailedAction exStore0 1000000 "delete_failed_pods" "prod" "multiple"
      ("Failed to delete failed pods: " ++ exErr.reason)
      (delete_failed_pods ⟨exLimFresh, some exStore0⟩ 1000000 "prod" false
        (.error exErr) (fun _ => .ok ())) ∧
    recordsFailedAction exStore0 1000000 "evict_pod_from_node" "prod" "p"
      ("Failed to evict pod: " ++ exErr.reason)
      (evict_pod_from_node ⟨exLimFresh, some exStore0⟩ 1000000 "prod" "p" false
        30 (.error exErr)) ∧
    recordsFailedAction exStore0 1000000 "drain_node" "-" "n1"
      ("Failed to drain node: " ++ exErr.reason)
      (drain_node ⟨exLimFresh, some exStore0⟩ 1000000 "n1" false 30 true false
        (.error exErr) (fun _ _ => .ok ())) ∧
    recordsFailedAction exStore0 1000000 "scale_deployment" "prod" "api"
      ("Failed to scale deployment: " ++ exErr.reason)
      (scale_deployment ⟨exLimFresh, some exStore0⟩ 1000000 "prod" "api" 3
        false (.error exErr) (.ok ())) ∧
    recordsFailedAction exStore0 1000000 "scale_deployment" "prod" "api"
      ("Failed to scale deployment: " ++ exErr.reason)
      (scale_deployment ⟨exLimFresh, some exStore0⟩ 1000000 "prod" "api" 3
        false (.ok 1) (.error exErr)) ∧
    recordsFailedAction exStore0 1000000 "rollback_deployment" "prod" "api"
      ("Failed to rollback deployment: " ++ exErr.reason)
      (rollback_deployment ⟨exLimFresh, some exStore0⟩ 1000000 "prod" "api"
        none false (.error exErr) (.ok ())) ∧
    recordsFailedAction exStore0 1000000 "rollback_deployment" "prod" "api"
      ("Failed to rollback deployment: " ++ exErr.reason)
      (rollback_deployment ⟨exLimFresh, some exStore0⟩ 1000000 "prod" "api"
        none false (.ok ()) (.error exErr)) ∧
    recordsFailedAction exStore0 1000000 "cordon_node" "-" "n1"
      ("Failed to cordon node: " ++ exErr.reason)
      (cordon_node ⟨exLimFresh, some exStore0⟩ 1000000 "n1" false
        (.error exErr) (.ok ())) ∧
    recordsFailedAction exStore0 1000000 "cordon_node" "-" "n1"
      ("Failed to cordon node: " ++ exErr.reason)
      (cordon_node ⟨exLimFresh, some exStore0⟩ 1000000 "n1" false (.ok false)
        (.error exErr)) ∧
    recordsFailedAction exStore0 1000000 "uncordon_node" "-" "n1"
      ("Failed to uncordon node: " ++ exErr.reason)
      (uncordon_node ⟨exLimFresh, some exStore0⟩ 1000000 "n1" false
        (.error exErr) (.ok ())) ∧
    recordsFailedAction exStore0 1000000 "uncordon_node" "-" "n1"
      ("Failed to uncordon node: " ++ exErr.reason)
      (uncordon_node ⟨exLimFresh, some exStore0⟩ 1000000 "n1" false (.ok true)
        (.error exErr)) :=
  ⟨C5_api_errors_caught.1 exLimFresh exStore0 1000000 "prod" "p" exErr
      (by decide),
   C5_api_errors_caught.2.1 exLimFresh exStore0 1000000 "prod" false
      (fun _ => .ok ()) exErr,
   C5_api_errors_caught.2.2.1 exLimFresh exStore0 1000000 "prod" "p" 30 exErr
      (by decide),
   C5_api_errors_caught.2.2.2.1 exLimFresh exStore0 1000000 "n1" false 30 true
      false (fun _ _ => .ok ()) exErr,
   C5_api_errors_caught.2.2.2.2.1 exLimFresh exStore0 1000000 "prod" "api" 3
      false (.ok ()) exErr,
   C5_api_errors_caught.2.2.2.2.2.1 exLimFresh exStore0 1000000 "prod" "api" 3
      1 exErr (by decide) (by decide),
   C5_api_errors_caught.2.2.2.2.2.2.1 exLimFresh exStore0 1000000 "prod" "api"
      none (.ok ()) exErr (by decide),
   C5_api_errors_caught.2.2.2.2.2.2.2.1 exLimFresh exStore0 1000000 "prod"
      "api" none exErr (by decide),
   C5_api_errors_caught.2.2.2.2.2.2.2.2.1 exLimFresh exStore0 1000000 "n1"
      (.ok ()) exErr (by decide),
   C5_api_errors_caught.2.2.2.2.2.2.2.2.2.1 exLimFresh exStore0 1000000 "n1"
      exErr (by decide),
   C5_api_errors_caught.2.2.2.2.2.2.2.2.2.2.1 exLimFresh exStore0 1000000 "n1"
      (.ok ()) exErr,
   C5_api_errors_caught.2.2.2.2.2.2.2.2.2.2.2 exLimFresh exStore0 1000000 "n1"
      exErr⟩

/-- C10: a non-dry-run `delete_failed_pods` that finds failed pods and is
admitted by the gate returns `success = true` and records an aggregate
action with `success = true` even when some or all per-pod deletions
raise API errors; `deleted_pods`/`deleted_count` reflect only the
deletions that succeeded, a delete call is issued for every found pod,
and the per-pod failures appear nowhere in the returned result (the
result equality below fixes every key of the returned dict). -/
theorem C10_per_pod_failures (lim : Limiter) (s : Store) (now : Int)
    (ns : String) (pods : List PodInfo)
    (delFor : String → Except ApiErr Unit)
    (hne : failedOf pods ≠ [])
    (hg : (canPerformActionR lim now "delete_failed_pods"
      (failedOf pods).length).1 = true) :
    (delete_failed_pods ⟨lim, some s⟩ now ns false (.ok pods) delFor).res =
      { success := true, action := "delete_failed_pods", ns := some ns,
        message := some ("Deleted " ++
          toString (((failedOf pods).filter
            (fun p => exceptOk (delFor p.name))).map (fun p => p.name)).length
          ++ " failed pods"),
        deleted_pods := some (((failedOf pods).filter
          (fun p => exceptOk (delFor p.name))).map (fun p => p.name)),
        deleted_count := some (((failedOf pods).filter
          (fun p => exceptOk (delFor p.name))).map (fun p => p.name)).length,
        action_id := some (some s.nextActionId), dry_run := false } ∧
    (delete_failed_pods ⟨lim, some s⟩ now ns false (.ok pods) delFor).st.store =
      some (recordedStore s now "delete_failed_pods" ns
        (toString (((failedOf pods).filter
          (fun p => exceptOk (delFor p.name))).map (fun p => p.name)).length
          ++ " pods")
        true
        ("Deleted " ++
          toString (((failedOf pods).filter
            (fun p => exceptOk (delFor p.name))).map (fun p => p.name)).length
          ++ " failed pods")) ∧
    (delete_failed_pods ⟨lim, some s⟩ now ns false (.ok pods) delFor).calls =
      (failedOf pods).map (fun p => .deletePod ns p.name 0) := by
  refine ⟨?_, ?_, ?_⟩ <;>
    simp [delete_failed_pods, List.isEmpty_iff, hne, hg,
      limiterRecordAction_some]

/-- C10 witness: two failed pods found, the second deletion raises — the
result still succeeds, lists only `p1`, and the aggregate row is
recorded with `success = true`. -/
theorem C10_witness :
    ((delete_failed_pods ⟨exLimFresh, some exStore0⟩ 1000000 "prod" false
        (.ok [exPodFailed, exPodFailed2])
        (fun n => if n == "p2" then .error exErr else .ok ())).res =
      { success := true, action := "delete_failed_pods", ns := some "prod",
        message := some ("Deleted " ++
          toString (((failedOf [exPodFailed, exPodFailed2]).filter
            (fun p => exceptOk (if p.name == "p2" then .error exErr
              else .ok ()))).map (fun p => p.name)).length ++ " failed pods"),
        deleted_pods := some (((failedOf [exPodFailed, exPodFailed2]).filter
          (fun p => exceptOk (if p.name == "p2" then .error exErr
            else .ok ()))).map (fun p => p.name)),
        deleted_count := some (((failedOf [exPodFailed, exPodFailed2]).filter
          (fun p => exceptOk (if p.name == "p2" then .error exErr
            else .ok ()))).map (fun p => p.name)).length,
        action_id := some (some exStore0.nextActionId), dry_run := false } ∧
      (delete_failed_pods ⟨exLimFresh, some exStore0⟩ 1000000 "prod" false
        (.ok [exPodFailed, exPodFailed2])
        (fun n => if n == "p2" then .error exErr else .ok ())).st.store =
      some (recordedStore exStore0 1000000 "delete_failed_pods" "prod"
        (toString (((failedOf [exPodFailed, exPodFailed2]).filter
          (fun p => exceptOk (if p.name == "p2" then .error exErr
            else .ok ()))).map (fun p => p.name)).length ++ " pods")
        true
        ("Deleted " ++
          toString (((failedOf [exPodFailed, exPodFailed2]).filter
            (fun p => exceptOk (if p.name == "p2" then .error exErr
              else .ok ()))).map (fun p => p.name)).length ++ " failed pods")) ∧
      (delete_failed_pods ⟨exLimFresh, some exStore0⟩ 1000000 "prod" false
        (.ok [exPodFailed, exPodFailed2])
        (fun n => if n == "p2" then .error exErr else .ok ())).calls =
      (failedOf [exPodFailed, exPodFailed2]).map
        (fun p => .deletePod "prod" p.name 0)) ∧
    ((failedOf [exPodFailed, exPodFailed2]).filter
      (fun p => exceptOk (if p.name == "p2" then .error exErr
        else .ok ()))).map (fun p => p.name) = ["p1"] :=
  ⟨C10_per_pod_failures exLimFresh exStore0 1000000 "prod"
      [exPodFailed, exPodFailed2]
      (fun n => if n == "p2" then .error exErr else .ok ())
      (by decide) (by decide),
   by decide⟩

/-- C9: `update_problem_status` keeps the problem table's length and
touches only the row(s) whose `id` matches: on the matching row exactly
`status`, `summary` and `last_updated` are overwritten — `summary`
becomes the `summary` argument, which is NULL when omitted, erasing any
previously stored summary — while `id`, `created_at`, `title`,
`namespace`, `resource`, `severity` and `fingerprint` are preserved on
every row and non-matching rows are returned verbatim; the returned
boolean is `rowcount > 0`, i.e. whether some row has the given id. -/
theorem C9_update_problem_frame (s : Store) (now : Int) (pid : Nat)
    (status : String) (summary : Option String) :
    ((s.update_problem_status now pid status summary).1 = true ↔
      ∃ r ∈ s.problems, r.id = pid) ∧
    List.Forall₂ (fun r r' : ProblemRow =>
        r'.id = r.id ∧ r'.created_at = r.created_at ∧ r'.title = r.title ∧
        r'.ns = r.ns ∧ r'.resource = r.resource ∧ r'.severity = r.severity ∧
        r'.fingerprint = r.fingerprint ∧
        (r.id ≠ pid → r' = r) ∧
        (r.id = pid → r'.status = status ∧ r'.summary = summary ∧
          r'.last_updated = now))
      s.problems (s.update_problem_status now pid status summary).2.problems := by
  constructor
  · simp [Store.update_problem_status, List.any_eq_true]
  · simp only [Store.update_problem_status]
    induction s.problems with
    | nil => exact List.Forall₂.nil
    | cons r rest ih =>
        refine List.Forall₂.cons ?_ ih
        by_cases h : r.id = pid <;> simp [h]

/-- C9 witness: resolving `exProblem` (which has a stored fingerprint and
no summary) with the summary argument omitted. -/
theorem C9_witness :
    ((exStoreP.update_problem_status 1000100 1 "resolved" none).1 = true ↔
      ∃ r ∈ exStoreP.problems, r.id = 1) ∧
    List.Forall₂ (fun r r' : ProblemRow =>
        r'.id = r.id ∧ r'.created_at = r.created_at ∧ r'.title = r.title ∧
        r'.ns = r.ns ∧ r'.resource = r.resource ∧ r'.severity = r.severity ∧
        r'.fingerprint = r.fingerprint ∧
        (r.id ≠ 1 → r' = r) ∧
        (r.id = 1 → r'.status = "resolved" ∧ r'.summary = none ∧
          r'.last_updated = 1000100))
      exStoreP.problems
      (exStoreP.update_problem_status 1000100 1 "resolved" none).2.problems :=
  C9_update_problem_frame exStoreP 1000100 1 "resolved" none

/-- One `action_stats` first-loop step never sets an average. -/
theorem statsStep_avg (m : List (String × TypeStats)) (a : ActionRow)
    (hm : ∀ q ∈ m, q.2.avg_resolution_time_seconds = none) :
    ∀ q ∈ statsStep m a, q.2.avg_resolution_time_seconds = none := by
  intro q hq
  simp only [statsStep, updateAssoc] at hq
  rcases List.mem_map.mp hq with ⟨q0, hq0, rfl⟩
  have hq0' : q0.2.avg_resolution_time_seconds = none := by
    by_cases hc : m.any (fun p => p.1 == a.action_type)
    · rw [if_pos hc] at hq0
      exact hm q0 hq0
    · rw [if_neg hc] at hq0
      rcases List.mem_append.mp hq0 with h1 | h2
      · exact hm q0 h1
      · simp only [List.mem_singleton] at h2
        rw [h2]
  by_cases hk : (q0.1 == a.action_type) = true
  · simp [hk, bumpType, hq0']
  · simp [hk, hq0']

/-- After the whole first loop of `action_stats`, every slot still has a
null average. -/
theorem byActionPass1_avg (acts : List ActionRow) :
    ∀ p ∈ byActionPass1 acts, p.2.avg_resolution_time_seconds = none := by
  unfold byActionPass1
  suffices h : ∀ (m : List (String × TypeStats)),
      (∀ q ∈ m, q.2.avg_resolution_time_seconds = none) →
      ∀ p ∈ acts.foldl statsStep m, p.2.avg_resolution_time_seconds = none by
    exact h [] (by simp)
  induction acts with
  | nil =>
      intro m hm p hp
      simp only [List.foldl_nil] at hp
      exact hm p hp
  | cons a rest ih =>
      intro m hm p hp
      simp only [List.foldl_cons] at hp
      exact ih (statsStep m a) (statsStep_avg m a hm) p hp

/-- The non-null resolution times of a type are empty exactly when no
windowed action of that type carries a resolution time. -/
theorem times_nil_iff (acts : List ActionRow) (t : String) :
    ((acts.filter (fun a => a.action_type == t &&
        a.resolution_time_seconds.isSome)).filterMap
      (fun a => a.resolution_time_seconds)) = [] ↔
    acts.filter (fun a => a.action_type == t &&
      a.resolution_time_seconds.isSome) = [] := by
  constructor
  · intro h
    cases hf : acts.filter (fun a => a.action_type == t &&
        a.resolution_time_seconds.isSome) with
    | nil => rfl
    | cons x xs =>
        exfalso
        have hx : x ∈ acts.filter (fun a => a.action_type == t &&
            a.resolution_time_seconds.isSome) := by
          rw [hf]
          exact List.mem_cons_self x xs
        have hpred := (List.mem_filter.mp hx).2
        have hsome : x.resolution_time_seconds.isSome = true := by
          simp only [Bool.and_eq_true] at hpred
          exact hpred.2
        rcases Option.isSome_iff_exists.mp hsome with ⟨v, hv⟩
        rw [hf, List.filterMap_cons, hv] at h
        simp at h
  · intro h
    rw [h]
    rfl

/-- C7: on the window holding exactly `[(A,true,10s), (A,false,null),
(B,true,20s)]`, `action_stats` returns total 3, successful 2, failed 1,
success_rate 66.7, A → total 2 / success 1 / failed 1 / avg 10.0 and
B → total 1 / success 1 / failed 0 / avg 20.0; and in general the
per-type `avg_resolution_time_seconds` is null exactly when no windowed
action of the type has a non-null resolution time — never zero in that
case. -/
theorem C7_action_stats :
    exStatsStore.action_stats 1000 24 =
      { time_period_hours := 24, total_actions := 3, successful_actions := 2,
        failed_actions := 1, success_rate := 667 / 10,
        by_action_type :=
          [("A", { total := 2, success := 1, failed := 1,
                   avg_resolution_time_seconds := some 10 }),
           ("B", { total := 1, success := 1, failed := 0,
                   avg_resolution_time_seconds := some 20 })] } ∧
    ∀ (s : Store) (now : Int) (hours : Nat) (t : String) (ts : TypeStats),
      (t, ts) ∈ (s.action_stats now hours).by_action_type →
      (ts.avg_resolution_time_seconds = none ↔
        (s.list_actions now hours).filter
          (fun a => a.action_type == t && a.resolution_time_seconds.isSome)
          = []) := by
  constructor
  · with_unfolding_all rfl
  · intro s now hours t ts h
    have h' : (t, ts) ∈ byActionFinal (s.list_actions now hours) := by
      simpa [Store.action_stats] using h
    rcases List.mem_map.mp h' with ⟨p, hp, heq⟩
    have hpavg := byActionPass1_avg (s.list_actions now hours) p hp
    simp only [finalizeType] at heq
    cases htimes : ((s.list_actions now hours).filter
        (fun a => a.action_type == p.1 &&
          a.resolution_time_seconds.isSome)).filterMap
        (fun a => a.resolution_time_seconds) with
    | nil =>
        rw [htimes] at heq
        have heq' : p = (t, ts) := heq
        have hp1 : p.1 = t := by rw [heq']
        have hp2 : p.2 = ts := by rw [heq']
        constructor
        · intro _
          rw [← hp1]
          exact (times_nil_iff (s.list_actions now hours) p.1).mp htimes
        · intro _
          rw [← hp2]
          exact hpavg
    | cons v vs =>
        rw [htimes] at heq
        have hw : ∃ w : ℚ,
            (p.1, { p.2 with avg_resolution_time_seconds := some w }) =
              (t, ts) :=
          ⟨roundTo2 ((v :: vs).sum / ((v :: vs).length : ℚ)), heq⟩
        rcases hw with ⟨w, heq'⟩
        have hp1 : p.1 = t := by
          have := congrArg Prod.fst heq'
          simpa using this
        have hts : ts.avg_resolution_time_seconds = some w := by
          have := congrArg (fun q => q.2.avg_resolution_time_seconds) heq'
          simpa using this.symm
        constructor
        · intro havg
          exfalso
          rw [hts] at havg
          simp at havg
        · intro hfil
          exfalso
          have h0 : ((s.list_actions now hours).filter
              (fun a => a.action_type == p.1 &&
                a.resolution_time_seconds.isSome)).filterMap
              (fun a => a.resolution_time_seconds) = [] :=
            (times_nil_iff (s.list_actions now hours) p.1).mpr
              (by rw [hp1]; exact hfil)
          rw [htimes] at h0
          simp at h0

/-- C7 witness: the general average clause applied to type A of the
stats example. -/
theorem C7_witness :
    (({ total := 2, success := 1, failed := 1,
        avg_resolution_time_seconds := some 10 } : TypeStats
        ).avg_resolution_time_seconds = none ↔
      (exStatsStore.list_actions 1000 24).filter
        (fun a => a.action_type == "A" && a.resolution_time_seconds.isSome)
        = []) :=
  C7_action_stats.2 exStatsStore 1000 24 "A"
    { total := 2, success := 1, failed := 1,
      avg_resolution_time_seconds := some 10 }
    (by rw [C7_action_stats.1]; simp)

/-- An element selected by `getLast?` is a member of the list. -/
theorem mem_of_getLast? {α : Type} {l : List α} {a : α}
    (h : l.getLast? = some a) : a ∈ l := by
  rcases List.mem_getLast?_eq_getLast (Option.mem_def.mpr h) with ⟨hne, rfl⟩
  exact List.getLast_mem hne

/-- In a list sorted by timestamp, the last element carries the maximal
timestamp. -/
theorem pairwise_le_getLast? :
    ∀ (l : List LogEntry),
      l.Pairwise (fun a b => a.timestamp ≤ b.timestamp) →
      ∀ last, l.getLast? = some last → ∀ a ∈ l, a.timestamp ≤ last.timestamp := by
  intro l
  induction l with
  | nil =>
      intro _ last h
      simp at h
  | cons x xs ih =>
      intro hp last hl a ha
      cases xs with
      | nil =>
          rw [List.getLast?_singleton] at hl
          rcases List.mem_singleton.mp ha with rfl
          rw [Option.some_inj.mp hl]
      | cons y ys =>
          rw [List.getLast?_cons_cons] at hl
          rcases List.mem_cons.mp ha with rfl | hmem
          · exact (List.pairwise_cons.mp hp).1 last (mem_of_getLast? hl)
          · exact ih (List.pairwise_cons.mp hp).2 last hl a hmem

/-- C8: if a same-type entry lies within the cooldown window (the code
takes the last such entry, which under a chronologically ordered log is
the most recent one), and the rate-limit and blast-radius checks pass,
then `can_perform_action` denies with the cooldown reason carrying
exactly `cooldown_minutes − (now − t_last)/60` minutes remaining — a
value strictly greater than 0 and at most `cooldown_minutes`; the final
conjunct certifies that the entry used is the most recent same-type
entry in the window. -/
theorem C8_cooldown_remaining (l : Limiter) (now : Int) (t : String) (n : Nat)
    (last : LogEntry)
    (hrate : (recentActions l now).length < l.max_actions_per_hour)
    (hblast : n ≤ l.max_pods_per_action)
    (hsorted : l.action_history.Pairwise
      (fun a b => a.timestamp ≤ b.timestamp))
    (hpast : ∀ a ∈ l.action_history, a.timestamp ≤ now)
    (hlast : (sameTypeActions l now t).getLast? = some last) :
    canPerformActionR l now t n =
      (false, .cooldown ((l.cooldown_minutes : ℚ) -
        ((now - last.timestamp : Int) : ℚ) / 60) t) ∧
    0 < (l.cooldown_minutes : ℚ) - ((now - last.timestamp : Int) : ℚ) / 60 ∧
    (l.cooldown_minutes : ℚ) - ((now - last.timestamp : Int) : ℚ) / 60 ≤
      (l.cooldown_minutes : ℚ) ∧
    ∀ a ∈ sameTypeActions l now t, a.timestamp ≤ last.timestamp := by
  have hlast_mem : last ∈ sameTypeActions l now t := mem_of_getLast? hlast
  have hwin : last.timestamp > now - 60 * (l.cooldown_minutes : Int) := by
    have h2 := (List.mem_filter.mp hlast_mem).2
    simp only [Bool.and_eq_true, decide_eq_true_eq] at h2
    exact h2.2
  have hle : last.timestamp ≤ now :=
    hpast last (List.mem_filter.mp hlast_mem).1
  refine ⟨?_, ?_, ?_, ?_⟩
  · simp only [canPerformActionR]
    rw [if_neg (Nat.not_le.mpr hrate), if_neg (Nat.not_lt.mpr hblast), hlast]
  · have hq : ((now - last.timestamp : Int) : ℚ) <
        60 * (l.cooldown_minutes : ℚ) := by
      have hz : (now - last.timestamp : Int) <
          60 * (l.cooldown_minutes : Int) := by omega
      exact_mod_cast hz
    have h60 : (0 : ℚ) < 60 := by norm_num
    rw [sub_pos, div_lt_iff₀ h60]
    linarith
  · have hq : (0 : ℚ) ≤ ((now - last.timestamp : Int) : ℚ) := by
      have hz : (0 : Int) ≤ now - last.timestamp := by omega
      exact_mod_cast hz
    have : (0 : ℚ) ≤ ((now - last.timestamp : Int) : ℚ) / 60 := by positivity
    linarith
  · exact pairwise_le_getLast? (sameTypeActions l now t)
      (List.Pairwise.filter _ hsorted) last hlast

/-- C8 witness: the cooldown denial at a limiter whose only entry is a
`restart_pod` 120 seconds old, leaving 3.0 minutes of cooldown. -/
theorem C8_witness :
    canPerformActionR exLimCdRestart 1000000 "restart_pod" 1 =
      (false, .cooldown ((exLimCdRestart.cooldown_minutes : ℚ) -
        ((1000000 - (exEntry 999880 "restart_pod").timestamp : Int) : ℚ) / 60)
        "restart_pod") ∧
    0 < (exLimCdRestart.cooldown_minutes : ℚ) -
      ((1000000 - (exEntry 999880 "restart_pod").timestamp : Int) : ℚ) / 60 ∧
    (exLimCdRestart.cooldown_minutes : ℚ) -
      ((1000000 - (exEntry 999880 "restart_pod").timestamp : Int) : ℚ) / 60 ≤
      (exLimCdRestart.cooldown_minutes : ℚ) ∧
    ∀ a ∈ sameTypeActions exLimCdRestart 1000000 "restart_pod",
      a.timestamp ≤ (exEntry 999880 "restart_pod").timestamp :=
  C8_cooldown_remaining exLimCdRestart 1000000 "restart_pod" 1
    (exEntry 999880 "restart_pod") (by decide) (by decide)
    (by simp [exLimCdRestart]) (by decide) (by decide)

/-- `_find_open_problem` returns nothing exactly when no stored problem
matches the fingerprint with status open. -/
theorem find_open_eq_none_iff (s : Store) (fp : String) :
    s.find_open_problem fp = none ↔
      s.problems.filter (matchesOpenFp fp) = [] := by
  simp [Store.find_open_problem, Option.map_eq_none', List.head?_eq_none_iff,
    sortBy_eq_nil]

/-- A successful `_find_open_problem` returns the id of some stored open
problem with the fingerprint. -/
theorem find_open_eq_some (s : Store) (fp : String) (i : Nat)
    (h : s.find_open_problem fp = some i) :
    ∃ u ∈ s.problems, matchesOpenFp fp u = true ∧ u.id = i := by
  simp only [Store.find_open_problem, Option.map_eq_some'] at h
  rcases h with ⟨u, hu, hui⟩
  have hmem : u ∈ sortBy (fun a b => decide (a.last_updated ≥ b.last_updated))
      (s.problems.filter (matchesOpenFp fp)) :=
    List.mem_of_mem_head? (Option.mem_def.mpr hu)
  rw [mem_sortBy] at hmem
  exact ⟨u, (List.mem_filter.mp hmem).1, (List.mem_filter.mp hmem).2, hui⟩

/-- `get_or_create_problem` when an open problem with the fingerprint
exists: return its id, leave the store untouched. -/
theorem get_or_create_found (t : Store) (now : Int) (title fp : String)
    (i : Nat) (h : t.find_open_problem fp = some i) :
    t.get_or_create_problem now title fp = (i, t) := by
  simp [Store.get_or_create_problem, h]

/-- `get_or_create_problem` when no open problem with the fingerprint
exists: insert a fresh open row and return the fresh id. -/
theorem get_or_create_created (t : Store) (now : Int) (title fp : String)
    (h : t.find_open_problem fp = none) :
    t.get_or_create_problem now title fp =
      (t.nextProblemId, createdStore t now title fp) := by
  simp [Store.get_or_create_problem, h, Store.create_problem, createdStore,
    createdRow]

/-- C6: under the store's intended invariants (row ids below the next
id; at most one open problem per fingerprint), two sequential calls to
`get_or_create_problem(title, fp)` return the same id, and after
`update_problem_status(id, "resolved")` a third call with the same
fingerprint returns an id distinct from the first (a freshly created
problem). -/
theorem C6_fingerprint_dedup (s : Store) (n1 n2 n3 n4 : Int)
    (title fp : String)
    (hfresh : ∀ r ∈ s.problems, r.id < s.nextProblemId)
    (huniq : ∀ r1 ∈ s.problems, ∀ r2 ∈ s.problems,
      matchesOpenFp fp r1 = true → matchesOpenFp fp r2 = true → r1 = r2) :
    ((s.get_or_create_problem n1 title fp).2.get_or_create_problem n2 title
      fp).1 = (s.get_or_create_problem n1 title fp).1 ∧
    ((((s.get_or_create_problem n1 title fp).2.get_or_create_problem n2 title
      fp).2.update_problem_status n3 (s.get_or_create_problem n1 title fp).1
      "resolved" none).2.get_or_create_problem n4 title fp).1 ≠
      (s.get_or_create_problem n1 title fp).1 := by
  cases h : s.find_open_problem fp with
  | some i =>
      obtain ⟨u, humem, humatch, huid⟩ := find_open_eq_some s fp i h
      rw [get_or_create_found s n1 title fp i h]
      dsimp only
      rw [get_or_create_found s n2 title fp i h]
      dsimp only
      refine ⟨rfl, ?_⟩
      have hnone :
          (s.update_problem_status n3 i "resolved" none).2.find_open_problem fp
            = none := by
        rw [find_open_eq_none_iff, List.filter_eq_nil_iff]
        intro r' hr'
        simp only [Store.update_problem_status] at hr'
        rcases List.mem_map.mp hr' with ⟨r, hr, rfl⟩
        by_cases hid : r.id = i
        · simp [hid, matchesOpenFp]
        · simp only [beq_iff_eq, hid, if_false]
          intro hm
          have hru : r = u := huniq r hr u humem hm humatch
          rw [hru, huid] at hid
          exact hid rfl
      rw [get_or_create_created _ n4 title fp hnone]
      dsimp only
      have hnext :
          (s.update_problem_status n3 i "resolved" none).2.nextProblemId =
            s.nextProblemId := by
        simp [Store.update_problem_status]
      rw [hnext]
      have hlt : i < s.nextProblemId := huid ▸ hfresh u humem
      omega
  | none =>
      have hfilter : s.problems.filter (matchesOpenFp fp) = [] :=
        (find_open_eq_none_iff s fp).mp h
      have hforall := List.filter_eq_nil_iff.mp hfilter
      rw [get_or_create_created s n1 title fp h]
      dsimp only
      have hfind1 : (createdStore s n1 title fp).find_open_problem fp =
          some s.nextProblemId := by
        unfold Store.find_open_problem
        rw [show (createdStore s n1 title fp).problems =
            s.problems ++ [createdRow s n1 title fp] from rfl]
        rw [List.filter_append, hfilter]
        simp [matchesOpenFp, createdRow, sortBy, insertBy]
      rw [get_or_create_found _ n2 title fp _ hfind1]
      dsimp only
      refine ⟨rfl, ?_⟩
      have hnone :
          ((createdStore s n1 title fp).update_problem_status n3
            s.nextProblemId "resolved" none).2.find_open_problem fp = none := by
        rw [find_open_eq_none_iff, List.filter_eq_nil_iff]
        intro r' hr'
        simp only [Store.update_problem_status, createdStore] at hr'
        rw [List.map_append] at hr'
        rcases List.mem_append.mp hr' with h1 | h2
        · rcases List.mem_map.mp h1 with ⟨r, hr, rfl⟩
          by_cases hid : r.id = s.nextProblemId
          · simp [hid, matchesOpenFp]
          · simp only [beq_iff_eq, hid, if_false]
            exact hforall r hr
        · simp only [List.map_cons, List.map_nil, List.mem_singleton] at h2
          rw [h2]
          simp [matchesOpenFp, createdRow]
      rw [get_or_create_created _ n4 title fp hnone]
      dsimp only
      have hnext :
          ((createdStore s n1 title fp).update_problem_status n3
            s.nextProblemId "resolved" none).2.nextProblemId =
            s.nextProblemId + 1 := by
        simp [Store.update_problem_status, createdStore]
      rw [hnext]
      omega

/-- C6 witness: starting from the empty store, the first two calls both
return id 1 and the post-resolution call returns id 2. -/
theorem C6_witness :
    ((exStore0.get_or_create_problem 100 "t" "fp").2.get_or_create_problem 200
      "t" "fp").1 = (exStore0.get_or_create_problem 100 "t" "fp").1 ∧
    ((((exStore0.get_or_create_problem 100 "t" "fp").2.get_or_create_problem
      200 "t" "fp").2.update_problem_status 300
      (exStore0.get_or_create_problem 100 "t" "fp").1 "resolved"
      none).2.get_or_create_problem 400 "t" "fp").1 ≠
      (exStore0.get_or_create_problem 100 "t" "fp").1 :=
  C6_fingerprint_dedup exStore0 100 200 300 400 "t" "fp"
    (by simp [exStore0]) (by simp [exStore0])

end SRE
